import Mathlib

/-!
The context lifecycle of `src/headless_context.cpp`

A shallow embedding of the C++ extension module: the `Context` object, its four entry
points (`Context_init`, `Context_meth_enter`, `Context_meth_exit`,
`Context_meth_load_opengl_function`), its destructor `Context_dealloc` and its method
table `Context_methods`, over an explicit model of the native calls they make.

Conventions.
* A native handle (`HWND`, `HDC`, `HGLRC`, `HMODULE`, a procedure address) is a natural
  number and `NULL` is `0`.
* The `int` flags `reusable`, `destroyed`, `enabled` only ever hold `false`/`true`
  (the `"p"` converter stores 0 or 1), so they are `Bool`.
* A C function that returns `PyObject *` returns a `PyResult` together with the fields of
  `self` and the native world after the call.
* A Python `str` is a list of code points, lone surrogates included; a `const char *` is an
  `Option String`, with `none` for `NULL`.
-/

namespace HeadlessContext

/-- A native handle or address; `NULL` is `0`. -/
abbrev Handle := Nat

/-- The null handle `NULL`. -/
abbrev NULL : Handle := 0

/-- The fields of `struct Context` (source lines 4-15), without the `PyObject_HEAD`. -/
structure Context where
  reusable : Bool
  destroyed : Bool
  enabled : Bool
  opengl32 : Handle
  hwnd : Handle
  hdc : Handle
  hglrc : Handle
  restore_hdc : Handle
  restore_hglrc : Handle
deriving DecidableEq, Repr

/-- One call into the operating system or the graphics driver, with its arguments. -/
inductive NativeCall where
  | GetModuleHandle (name : Option String)
  | RegisterClass
  | CreateWindow
  | GetDC (hwnd : Handle)
  | DescribePixelFormat (hdc : Handle) (index : Nat)
  | SetPixelFormat (hdc : Handle) (index : Nat)
  | wglCreateContext (hdc : Handle)
  | wglGetCurrentDC
  | wglGetCurrentContext
  | wglMakeCurrent (hdc : Handle) (hglrc : Handle)
  | wglDeleteContext (hglrc : Handle)
  | ReleaseDC (hwnd : Handle) (hdc : Handle)
  | DestroyWindow (hwnd : Handle)
  | GetProcAddress (module : Handle) (name : Option String)
  | wglGetProcAddress (name : Option String)
deriving DecidableEq, Repr

/-- The native state seen by one thread: its current-context slot, holding the
(device context, rendering context) pair, and the log of the native calls issued so far,
oldest first. -/
structure World where
  current : Handle × Handle
  calls : List NativeCall
deriving DecidableEq, Repr

/-- The two address lookups of the platform, which the module only consumes: the static
export table of a loaded library and the driver's extension resolver, the latter depending
on the context that is current. The name is a `const char *`, so it may be `NULL`. -/
structure Driver where
  exports : Handle → Option String → Handle
  extensions : Handle × Handle → Option String → Handle

/-- The handles the platform hands out during one construction: the results of
`GetModuleHandle(NULL)`, `GetModuleHandle("opengl32")`, `CreateWindow`, `GetDC` and
`wglCreateContext`. Any of them may be `NULL`. -/
structure NativeHandles where
  hinst : Handle
  opengl32 : Handle
  hwnd : Handle
  hdc : Handle
  hglrc : Handle
deriving DecidableEq, Repr

/-- Appends one native call to the log. -/
def World.log (w : World) (c : NativeCall) : World :=
  { w with calls := w.calls ++ [c] }

/-- The native `wglGetCurrentDC`: reads the device context of the slot. -/
def wglGetCurrentDC (w : World) : Handle × World :=
  (w.current.1, w.log NativeCall.wglGetCurrentDC)

/-- The native `wglGetCurrentContext`: reads the rendering context of the slot. -/
def wglGetCurrentContext (w : World) : Handle × World :=
  (w.current.2, w.log NativeCall.wglGetCurrentContext)

/-- The native `wglMakeCurrent`: the slot holds the pair passed last, so that the two
`wglGetCurrent*` calls return the pair last passed here. -/
def wglMakeCurrent (hdc hglrc : Handle) (w : World) : World :=
  { current := (hdc, hglrc), calls := w.calls ++ [NativeCall.wglMakeCurrent hdc hglrc] }

/-- The native `wglDeleteContext`. -/
def wglDeleteContext (hglrc : Handle) (w : World) : World :=
  w.log (NativeCall.wglDeleteContext hglrc)

/-- The native `ReleaseDC`. -/
def ReleaseDC (hwnd hdc : Handle) (w : World) : World :=
  w.log (NativeCall.ReleaseDC hwnd hdc)

/-- The native `DestroyWindow`. -/
def DestroyWindow (hwnd : Handle) (w : World) : World :=
  w.log (NativeCall.DestroyWindow hwnd)

/-- The native `GetProcAddress`: a lookup in the export table of `module`. -/
def GetProcAddress (d : Driver) (module : Handle) (name : Option String) (w : World) :
    Handle × World :=
  (d.exports module name, w.log (NativeCall.GetProcAddress module name))

/-- The native `wglGetProcAddress`: the extension resolver, for the current context. -/
def wglGetProcAddress (d : Driver) (name : Option String) (w : World) :
    Handle × World :=
  (d.extensions w.current name, w.log (NativeCall.wglGetProcAddress name))

/-- A code point of a Python `str`: a Unicode scalar value, or a lone surrogate, the
code point `0xD800 + n`, which a `str` may hold but which has no UTF-8 encoding. -/
inductive CodePoint where
  | scalar (c : Char)
  | surrogate (n : Fin 2048)
deriving DecidableEq, Repr

/-- The Python values that reach the module as arguments; a `str` is its code points. -/
inductive PyObject where
  | none
  | bool (b : Bool)
  | long (n : Int)
  | str (s : List CodePoint)
  | bytes (s : String)
deriving DecidableEq, Repr

/-- The `str` whose code points are the characters of `s`; it holds no surrogate. -/
def text (s : String) : List CodePoint :=
  s.toList.map CodePoint.scalar

/-- The exception classes that occur. -/
inductive PyExc where
  | RuntimeError
  | TypeError
  | AttributeError
  | UnicodeEncodeError
deriving DecidableEq, Repr

/-- What a C function of type `PyCFunction` hands back: `Py_None`, a Python integer,
`NULL` after `PyErr_Format` set an exception, a bare `NULL` with no exception set, or a
Python integer while an exception set by an earlier call is still pending. -/
inductive PyResult where
  | none
  | long (v : Nat)
  | raised (exc : PyExc) (msg : String)
  | null
  | long_raised (v : Nat) (exc : PyExc)
deriving DecidableEq, Repr

/-- A call succeeded when it returned an object, i.e. not `NULL`. -/
def PyResult.ok : PyResult → Bool
  | PyResult.none => true
  | PyResult.long _ => true
  | PyResult.raised _ _ => false
  | PyResult.null => false
  | PyResult.long_raised _ _ => true

/-- The exception that is set when the function returns, if any. -/
def PyResult.exception : PyResult → Option PyExc
  | PyResult.raised exc _ => some exc
  | PyResult.long_raised _ exc => some exc
  | _ => Option.none

/-- A call failed when it returned `NULL`. -/
def PyResult.failed (r : PyResult) : Bool := !r.ok

/-- The outcome of line 65, the spec's `AlreadyEnabledError`. -/
def AlreadyEnabledError : PyResult :=
  PyResult.raised PyExc.RuntimeError "Context is already enabled"

/-- The outcome of line 69, the spec's `DestroyedError`. -/
def DestroyedError : PyResult :=
  PyResult.raised PyExc.RuntimeError "Context is destroyed"

/-- The outcome of lines 81 and 102, the spec's `NotEnabledError`. -/
def NotEnabledError : PyResult :=
  PyResult.raised PyExc.RuntimeError "Context is not enabled"

/-- Truth value of an argument, as `PyObject_IsTrue` computes it for the `"p"` format. -/
def PyObject_IsTrue : PyObject → Bool
  | PyObject.none => false
  | PyObject.bool b => b
  | PyObject.long n => n != 0
  | PyObject.str s => !s.isEmpty
  | PyObject.bytes s => s != ""

/-- The call `PyArg_ParseTupleAndKeywords(args, kwargs, "|p", {"reusable"}, &reusable)`:
at most one argument, positional or under the keyword `reusable`; `none` is a parse
failure, and with no argument the variable keeps its initial value. -/
def PyArg_ParseTupleAndKeywords (args : List PyObject) (kwargs : List (String × PyObject))
    (reusable : Bool) : Option Bool :=
  match args, kwargs with
  | [], [] => some reusable
  | [x], [] => some (PyObject_IsTrue x)
  | [], [(k, x)] => if k = "reusable" then some (PyObject_IsTrue x) else Option.none
  | _, _ => Option.none

/-- The characters of a `str` when every code point is a scalar value; `none` when it
holds a lone surrogate, which cannot be encoded. -/
def utf8Chars : List CodePoint → Option (List Char)
  | [] => some []
  | CodePoint.scalar c :: cs => (utf8Chars cs).map (fun r => c :: r)
  | CodePoint.surrogate _ :: _ => Option.none

/-- The call `PyUnicode_AsUTF8(arg)`: the UTF-8 buffer of the `str` as a C string, i.e.
the characters before the first NUL, or `NULL` (`none`), with `UnicodeEncodeError` set,
when the `str` cannot be encoded. -/
def PyUnicode_AsUTF8 (s : List CodePoint) : Option String :=
  (utf8Chars s).map (fun cs => String.mk (cs.takeWhile (fun c => c != Char.ofNat 0)))

/-- The memory of a new object as the allocator returns it: all fields zero. -/
def Context.zero : Context :=
  { reusable := false, destroyed := false, enabled := false, opengl32 := NULL,
    hwnd := NULL, hdc := NULL, hglrc := NULL, restore_hdc := NULL, restore_hglrc := NULL }

/-- The three owned handles `(hwnd, hdc, hglrc)`. -/
def Context.owned (self : Context) : Handle × Handle × Handle :=
  (self.hwnd, self.hdc, self.hglrc)

/-- The instance's own (device context, rendering context) pair. -/
def Context.pair (self : Context) : Handle × Handle :=
  (self.hdc, self.hglrc)

/-- The saved pair `(restore_hdc, restore_hglrc)`. -/
def Context.saved (self : Context) : Handle × Handle :=
  (self.restore_hdc, self.restore_hglrc)

/-- The destructor `Context_dealloc` (lines 19-34); the result is the fields as they are
when `PyObject_Del` frees the object. -/
def Context_dealloc (self : Context) (w : World) : Context × World :=
  let (self1, w1) : Context × World :=
    if self.enabled then
      let w1 := wglMakeCurrent self.restore_hdc self.restore_hglrc w
      ({ self with enabled := false }, w1)
    else (self, w)
  if !self1.destroyed then
    let w2 := wglDeleteContext self1.hglrc w1
    let w3 := ReleaseDC self1.hwnd self1.hdc w2
    let w4 := DestroyWindow self1.hwnd w3
    ({ self1 with hwnd := NULL, hdc := NULL, hglrc := NULL, destroyed := true }, w4)
  else (self1, w1)

/-- The initialiser `Context_init` (lines 36-61); the integer is its return value. -/
def Context_init (self : Context) (args : List PyObject) (kwargs : List (String × PyObject))
    (h : NativeHandles) (w : World) : Int × Context × World :=
  match PyArg_ParseTupleAndKeywords args kwargs false with
  | Option.none => (-1, self, w)
  | some reusable =>
    let w := w.log (NativeCall.GetModuleHandle Option.none)
    let w := w.log NativeCall.RegisterClass
    let w := w.log (NativeCall.GetModuleHandle (some "opengl32"))
    let self := { self with opengl32 := h.opengl32 }
    let w := w.log NativeCall.CreateWindow
    let self := { self with hwnd := h.hwnd }
    let w := w.log (NativeCall.GetDC self.hwnd)
    let self := { self with hdc := h.hdc }
    let w := w.log (NativeCall.DescribePixelFormat self.hdc 1)
    let w := w.log (NativeCall.SetPixelFormat self.hdc 1)
    let w := w.log (NativeCall.wglCreateContext self.hdc)
    let self := { self with hglrc := h.hglrc }
    (0, { self with reusable := reusable, destroyed := false, enabled := false,
                    restore_hdc := NULL, restore_hglrc := NULL }, w)

/-- The method `Context_meth_enter` (lines 63-77), the spec's `Activate`. -/
def Context_meth_enter (self : Context) (w : World) : PyResult × Context × World :=
  if self.enabled then
    (PyResult.raised PyExc.RuntimeError "Context is already enabled", self, w)
  else if self.destroyed then
    (PyResult.raised PyExc.RuntimeError "Context is destroyed", self, w)
  else
    let (dc, w1) := wglGetCurrentDC w
    let self1 := { self with restore_hdc := dc }
    let (rc, w2) := wglGetCurrentContext w1
    let self2 := { self1 with restore_hglrc := rc }
    let w3 := wglMakeCurrent self2.hdc self2.hglrc w2
    (PyResult.none, { self2 with enabled := true }, w3)

/-- The method `Context_meth_exit` (lines 79-98), the spec's `Deactivate`; its `args` and
`kwargs` are never read. -/
def Context_meth_exit (self : Context) (w : World) : PyResult × Context × World :=
  if !self.enabled then
    (PyResult.raised PyExc.RuntimeError "Context is not enabled", self, w)
  else
    let (self1, w1) : Context × World :=
      if !self.reusable then
        let w1 := wglDeleteContext self.hglrc w
        let w2 := ReleaseDC self.hwnd self.hdc w1
        let w3 := DestroyWindow self.hwnd w2
        ({ self with hwnd := NULL, hdc := NULL, hglrc := NULL, destroyed := true }, w3)
      else (self, w)
    let w2 := wglMakeCurrent self1.restore_hdc self1.restore_hglrc w1
    (PyResult.none,
     { self1 with restore_hdc := NULL, restore_hglrc := NULL, enabled := false }, w2)

/-- The function `Context_meth_load_opengl_function` (lines 100-114), the spec's
`ResolveFunction`. The result of `PyUnicode_AsUTF8` is not checked: when it is `NULL` the
two lookups receive a `NULL` name and `PyLong_FromVoidPtr` returns its integer while the
`UnicodeEncodeError` is still set. -/
def Context_meth_load_opengl_function (d : Driver) (self : Context) (arg : PyObject)
    (w : World) : PyResult × Context × World :=
  if !self.enabled then
    (PyResult.raised PyExc.RuntimeError "Context is not enabled", self, w)
  else
    match arg with
    | PyObject.str s =>
      let name := PyUnicode_AsUTF8 s
      let (proc, w1) := GetProcAddress d self.opengl32 name w
      let (proc, w2) : Handle × World :=
        if proc = NULL then wglGetProcAddress d name w1 else (proc, w1)
      match name with
      | some _ => (PyResult.long proc, self, w2)
      | Option.none => (PyResult.long_raised proc PyExc.UnicodeEncodeError, self, w2)
    | _ => (PyResult.null, self, w)

/-- The C functions a method-table entry can point to. -/
inductive CFunction where
  | Context_meth_enter
  | Context_meth_exit
  | Context_meth_load_opengl_function
deriving DecidableEq, Repr

/-- The calling conventions used in the method table. -/
inductive MethFlags where
  | METH_NOARGS
  | METH_VARARGS_KEYWORDS
  | METH_O
deriving DecidableEq, Repr

/-- The method table `Context_methods` (lines 116-121). -/
def Context_methods : List (String × CFunction × MethFlags) :=
  [("__enter__", CFunction.Context_meth_enter, MethFlags.METH_NOARGS),
   ("__exit__", CFunction.Context_meth_exit, MethFlags.METH_VARARGS_KEYWORDS),
   ("load_opengl_function", CFunction.Context_meth_exit, MethFlags.METH_O)]

/-- Runs the C function an entry points to; `METH_O` passes the single argument. -/
def invoke (d : Driver) (f : CFunction) (self : Context) (args : List PyObject)
    (w : World) : PyResult × Context × World :=
  match f with
  | CFunction.Context_meth_enter => Context_meth_enter self w
  | CFunction.Context_meth_exit => Context_meth_exit self w
  | CFunction.Context_meth_load_opengl_function =>
    Context_meth_load_opengl_function d self (args.headD PyObject.none) w

/-- A method call `self.name(*args)` as the interpreter performs it: the entry is looked up
by name in `Context_methods`, the argument count is checked against the entry's calling
convention, and the entry's C function runs. -/
def call_method (d : Driver) (name : String) (self : Context) (args : List PyObject)
    (w : World) : PyResult × Context × World :=
  match Context_methods.lookup name with
  | Option.none => (PyResult.raised PyExc.AttributeError name, self, w)
  | some (f, MethFlags.METH_NOARGS) =>
    if args.length = 0 then invoke d f self args w
    else (PyResult.raised PyExc.TypeError name, self, w)
  | some (f, MethFlags.METH_O) =>
    if args.length = 1 then invoke d f self args w
    else (PyResult.raised PyExc.TypeError name, self, w)
  | some (f, MethFlags.METH_VARARGS_KEYWORDS) => invoke d f self args w

/-- The construction of an instance: `Context_init` on freshly allocated memory. -/
def Construct (args : List PyObject) (kwargs : List (String × PyObject)) (h : NativeHandles)
    (w : World) : Int × Context × World :=
  Context_init Context.zero args kwargs h w

/-- The operations of the specification on one constructed instance. -/
inductive Op where
  | Activate
  | Deactivate
  | ResolveFunction (arg : PyObject)
  | Teardown
deriving DecidableEq, Repr

/-- One operation on an instance: the fields and the native world after the call, whether
the call succeeded or failed. -/
def step (d : Driver) (op : Op) (s : Context × World) : Context × World :=
  match op with
  | Op.Activate => (Context_meth_enter s.1 s.2).2
  | Op.Deactivate => (Context_meth_exit s.1 s.2).2
  | Op.ResolveFunction arg => (Context_meth_load_opengl_function d s.1 arg s.2).2
  | Op.Teardown => Context_dealloc s.1 s.2

/-- A sequence of operations on one instance, first operation first. -/
def run (d : Driver) : List Op → Context × World → Context × World
  | [], s => s
  | op :: ops, s => run d ops (step d op s)

/-- Whether an operation is one of the three method calls, i.e. not the destructor. -/
def Op.isCall : Op → Bool
  | Op.Teardown => false
  | _ => true

/-- Runs `n` consecutive Activate/Deactivate pairs on one instance and collects the
results of the `2 * n` calls. -/
def cycles : Nat → Context → World → List PyResult × Context × World
  | 0, self, w => ([], self, w)
  | n + 1, self, w =>
    let (r1, s1, w1) := Context_meth_enter self w
    let (r2, s2, w2) := Context_meth_exit s1 w1
    let (rs, s3, w3) := cycles n s2 w2
    (r1 :: r2 :: rs, s3, w3)

/-- Activates the instances of a list in order on one thread; each position of the list
is an object of its own. -/
def activateAll : List Context → World → List PyResult × List Context × World
  | [], w => ([], [], w)
  | c :: cs, w =>
    let (r, c1, w1) := Context_meth_enter c w
    let (rs, cs1, w2) := activateAll cs w1
    (r :: rs, c1 :: cs1, w2)

/-- Deactivates the instances of a list in reverse order, the last one first; the results
are in the order of the calls. -/
def deactivateRev : List Context → World → List PyResult × List Context × World
  | [], w => ([], [], w)
  | c :: cs, w =>
    let (rs, cs1, w1) := deactivateRev cs w
    let (r, c1, w2) := Context_meth_exit c w1
    (rs ++ [r], c1 :: cs1, w2)

/-- The pair that is current once the instances of a list were activated in order, starting
from the slot `p`: the own pair of the last one. -/
def topPair (p : Handle × Handle) : List Context → Handle × Handle
  | [] => p
  | c :: cs => topPair c.pair cs

/-- The state invariant of the data model: a destroyed instance is not enabled and holds
no owned handle. -/
def invariant (self : Context) : Prop :=
  self.destroyed = true →
    self.enabled = false ∧ self.hwnd = NULL ∧ self.hdc = NULL ∧ self.hglrc = NULL

instance (self : Context) : Decidable (invariant self) := by
  unfold invariant; infer_instance

/-- Whether a native call releases an owned resource. -/
def NativeCall.isRelease : NativeCall → Bool
  | NativeCall.wglDeleteContext _ => true
  | NativeCall.ReleaseDC _ _ => true
  | NativeCall.DestroyWindow _ => true
  | _ => false

/-- Whether a native call is a `wglMakeCurrent`. -/
def NativeCall.isMakeCurrent : NativeCall → Bool
  | NativeCall.wglMakeCurrent _ _ => true
  | _ => false

/-- The three release calls for the owned handles of an instance, in the order rendering
context, device context, window. -/
def releaseCalls (self : Context) : List NativeCall :=
  [NativeCall.wglDeleteContext self.hglrc, NativeCall.ReleaseDC self.hwnd self.hdc,
   NativeCall.DestroyWindow self.hwnd]

/-- The release of the owned resources as the specification words it: the three release
calls in order with the handles held, then the handles null and `destroyed` set. -/
def release_spec (self : Context) (w : World) : Context × World :=
  ({ self with hwnd := NULL, hdc := NULL, hglrc := NULL, destroyed := true },
   { w with calls := w.calls ++ releaseCalls self })

/-- How often each of the three owned handles of `self` was passed to its release call in
a log: (delete rendering context, release device context, destroy window). -/
def released (self : Context) (calls : List NativeCall) : Nat × Nat × Nat :=
  (calls.count (NativeCall.wglDeleteContext self.hglrc),
   calls.count (NativeCall.ReleaseDC self.hwnd self.hdc),
   calls.count (NativeCall.DestroyWindow self.hwnd))

/-- A driver that exports `glGetString` from the base module at address 4096 and resolves
`glCreateShader` as an extension at address 8192 while a context is current. -/
def exampleDriver : Driver :=
  { exports := fun _ name => if name = some "glGetString" then 4096 else 0,
    extensions := fun cur name =>
      if cur.2 = NULL then 0 else if name = some "glCreateShader" then 8192 else 0 }

/-- An instance as constructed with window 11, device context 12, rendering context 13. -/
def exampleContext (reusable : Bool) : Context :=
  { reusable := reusable, destroyed := false, enabled := false, opengl32 := 10,
    hwnd := 11, hdc := 12, hglrc := 13, restore_hdc := NULL, restore_hglrc := NULL }

/-- A second instance, with window 21, device context 22, rendering context 23. -/
def exampleContextB (reusable : Bool) : Context :=
  { reusable := reusable, destroyed := false, enabled := false, opengl32 := 10,
    hwnd := 21, hdc := 22, hglrc := 23, restore_hdc := NULL, restore_hglrc := NULL }

/-- A thread on which the pair (5, 7) of some other component is current. -/
def exampleWorld : World :=
  { current := (5, 7), calls := [] }

/-- One Activate immediately followed by one Deactivate on the same instance. -/
def activateDeactivate (self : Context) (w : World) : PyResult × Context × World :=
  Context_meth_exit (Context_meth_enter self w).2.1 (Context_meth_enter self w).2.2

/-- The save/restore chain of a list of activated instances over the slot `p`: each one is
enabled and has saved the pair that was current before it, which is `p` for the first and
the own pair of its predecessor for the others. -/
def savedChain (p : Handle × Handle) : List Context → Prop
  | [] => True
  | c :: cs => c.enabled = true ∧ c.saved = p ∧ savedChain c.pair cs

/-- Nesting: the instances `pre ++ post` are activated in order, then those of `post` are
deactivated in reverse order; the result is that of the deactivations. -/
def nest (pre post : List Context) (w : World) : List PyResult × List Context × World :=
  deactivateRev ((activateAll (pre ++ post) w).2.1.drop pre.length)
    (activateAll (pre ++ post) w).2.2

/-- The native calls issued since the world `w0`: what the log of `w` holds beyond the log
of `w0`. -/
def issued (w0 w : World) : List NativeCall :=
  w.calls.drop w0.calls.length

/-- Out-of-order deactivation of two instances on one thread: `a` is activated, then `b`,
then `a` is deactivated before `b` is. The results of the four calls, in order, and the
native world at the end. -/
def outOfOrder (a b : Context) (w : World) : List PyResult × World :=
  let (r1, a1, w1) := Context_meth_enter a w
  let (r2, b1, w2) := Context_meth_enter b w1
  let (r3, _, w3) := Context_meth_exit a1 w2
  let (r4, _, w4) := Context_meth_exit b1 w3
  ([r1, r2, r3, r4], w4)

/-- The enabled instance that `exampleContext` becomes by an Activate in `exampleWorld`. -/
def exampleEnabled (reusable : Bool) : Context :=
  (Context_meth_enter (exampleContext reusable) exampleWorld).2.1

/-- The native world after that Activate. -/
def exampleEnabledWorld (reusable : Bool) : World :=
  (Context_meth_enter (exampleContext reusable) exampleWorld).2.2

/-- The instance and the native world after a construction followed by a sequence of
operations on the instance. -/
def afterCalls (d : Driver) (args : List PyObject) (kwargs : List (String × PyObject))
    (h : NativeHandles) (w0 : World) (ops : List Op) : Context × World :=
  run d ops (Construct args kwargs h w0).2

/-- The instance and the native world once the destructor has run after such a
sequence. -/
def afterTeardown (d : Driver) (args : List PyObject) (kwargs : List (String × PyObject))
    (h : NativeHandles) (w0 : World) (ops : List Op) : Context × World :=
  Context_dealloc (afterCalls d args kwargs h w0 ops).1 (afterCalls d args kwargs h w0 ops).2

/-- The platform handles of the example instance. -/
def exampleHandles : NativeHandles :=
  { hinst := 1, opengl32 := 10, hwnd := 11, hdc := 12, hglrc := 13 }

/-- The bookkeeping of releases along the life of an instance constructed as `c0` in the
world `w1`: the invariant holds, the log has only grown, and either nothing was released
and the owned handles are those of `c0`, or the instance is destroyed and the release
calls issued are exactly the three for the handles of `c0`. -/
def ledger (c0 : Context) (w1 : World) (s : Context × World) : Prop :=
  invariant s.1 ∧ ∃ extra, s.2.calls = w1.calls ++ extra ∧
    ((s.1.destroyed = false ∧ s.1.owned = c0.owned ∧
        extra.filter NativeCall.isRelease = []) ∨
     (s.1.destroyed = true ∧ extra.filter NativeCall.isRelease = releaseCalls c0))

/-- Platform results of a construction in which the window, the device context and the
rendering context could not be created: the three creation calls returned `NULL`. -/
def failedHandles : NativeHandles :=
  { hinst := 1, opengl32 := 10, hwnd := NULL, hdc := NULL, hglrc := NULL }

/-! ## Equations of the entry points -/

theorem enter_ok (self : Context) (w : World) (he : self.enabled = false)
    (hd : self.destroyed = false) :
    Context_meth_enter self w =
      (PyResult.none,
       { self with restore_hdc := w.current.1, restore_hglrc := w.current.2,
                   enabled := true },
       { current := (self.hdc, self.hglrc),
         calls := w.calls ++ [NativeCall.wglGetCurrentDC, NativeCall.wglGetCurrentContext,
           NativeCall.wglMakeCurrent self.hdc self.hglrc] }) := by
  simp [Context_meth_enter, he, hd, wglGetCurrentDC, wglGetCurrentContext, wglMakeCurrent,
    World.log]

theorem enter_enabled (self : Context) (w : World) (he : self.enabled = true) :
    Context_meth_enter self w = (AlreadyEnabledError, self, w) := by
  simp [Context_meth_enter, he, AlreadyEnabledError]

theorem enter_destroyed (self : Context) (w : World) (he : self.enabled = false)
    (hd : self.destroyed = true) :
    Context_meth_enter self w = (DestroyedError, self, w) := by
  simp [Context_meth_enter, he, hd, DestroyedError]

theorem exit_not_enabled (self : Context) (w : World) (he : self.enabled = false) :
    Context_meth_exit self w = (NotEnabledError, self, w) := by
  simp [Context_meth_exit, he, NotEnabledError]

theorem exit_reusable (self : Context) (w : World) (he : self.enabled = true)
    (hr : self.reusable = true) :
    Context_meth_exit self w =
      (PyResult.none,
       { self with restore_hdc := NULL, restore_hglrc := NULL, enabled := false },
       { current := (self.restore_hdc, self.restore_hglrc),
         calls := w.calls ++
           [NativeCall.wglMakeCurrent self.restore_hdc self.restore_hglrc] }) := by
  simp [Context_meth_exit, he, hr, wglMakeCurrent]

theorem exit_single_use (self : Context) (w : World) (he : self.enabled = true)
    (hr : self.reusable = false) :
    Context_meth_exit self w =
      (PyResult.none,
       { self with hwnd := NULL, hdc := NULL, hglrc := NULL, destroyed := true,
                   restore_hdc := NULL, restore_hglrc := NULL, enabled := false },
       { current := (self.restore_hdc, self.restore_hglrc),
         calls := w.calls ++ releaseCalls self ++
           [NativeCall.wglMakeCurrent self.restore_hdc self.restore_hglrc] }) := by
  simp [Context_meth_exit, he, hr, wglMakeCurrent, wglDeleteContext, ReleaseDC,
    DestroyWindow, World.log, releaseCalls]

theorem load_not_enabled (d : Driver) (self : Context) (arg : PyObject) (w : World)
    (he : self.enabled = false) :
    Context_meth_load_opengl_function d self arg w = (NotEnabledError, self, w) := by
  simp [Context_meth_load_opengl_function, he, NotEnabledError]

theorem load_str (d : Driver) (self : Context) (s : List CodePoint) (w : World)
    (he : self.enabled = true) :
    Context_meth_load_opengl_function d self (PyObject.str s) w =
      ((match PyUnicode_AsUTF8 s with
        | some _ => PyResult.long
            (if d.exports self.opengl32 (PyUnicode_AsUTF8 s) = NULL
             then d.extensions w.current (PyUnicode_AsUTF8 s)
             else d.exports self.opengl32 (PyUnicode_AsUTF8 s))
        | Option.none => PyResult.long_raised
            (if d.exports self.opengl32 (PyUnicode_AsUTF8 s) = NULL
             then d.extensions w.current (PyUnicode_AsUTF8 s)
             else d.exports self.opengl32 (PyUnicode_AsUTF8 s)) PyExc.UnicodeEncodeError),
       self,
       { current := w.current,
         calls := w.calls ++
           (NativeCall.GetProcAddress self.opengl32 (PyUnicode_AsUTF8 s) ::
             (if d.exports self.opengl32 (PyUnicode_AsUTF8 s) = NULL
              then [NativeCall.wglGetProcAddress (PyUnicode_AsUTF8 s)] else [])) }) := by
  by_cases h : d.exports self.opengl32 (PyUnicode_AsUTF8 s) = 0 <;>
    cases hn : PyUnicode_AsUTF8 s <;>
    simp [Context_meth_load_opengl_function, he, GetProcAddress, wglGetProcAddress,
      World.log, h, hn] <;> simp_all

theorem load_text (d : Driver) (self : Context) (s : List CodePoint) (name : String)
    (w : World) (he : self.enabled = true) (hn : PyUnicode_AsUTF8 s = some name) :
    Context_meth_load_opengl_function d self (PyObject.str s) w =
      (PyResult.long
         (if d.exports self.opengl32 (some name) = NULL
          then d.extensions w.current (some name)
          else d.exports self.opengl32 (some name)),
       self,
       { current := w.current,
         calls := w.calls ++
           (NativeCall.GetProcAddress self.opengl32 (some name) ::
             (if d.exports self.opengl32 (some name) = NULL
              then [NativeCall.wglGetProcAddress (some name)] else [])) }) := by
  rw [load_str d self s w he, hn]

theorem load_surrogate (d : Driver) (self : Context) (s : List CodePoint) (w : World)
    (he : self.enabled = true) (hn : PyUnicode_AsUTF8 s = Option.none) :
    Context_meth_load_opengl_function d self (PyObject.str s) w =
      (PyResult.long_raised
         (if d.exports self.opengl32 Option.none = NULL
          then d.extensions w.current Option.none
          else d.exports self.opengl32 Option.none) PyExc.UnicodeEncodeError,
       self,
       { current := w.current,
         calls := w.calls ++
           (NativeCall.GetProcAddress self.opengl32 Option.none ::
             (if d.exports self.opengl32 Option.none = NULL
              then [NativeCall.wglGetProcAddress Option.none] else [])) }) := by
  rw [load_str d self s w he, hn]

theorem utf8Chars_text (cs : List Char) :
    utf8Chars (cs.map CodePoint.scalar) = some cs := by
  induction cs with
  | nil => rfl
  | cons c cs ih => simp [utf8Chars, ih]

theorem PyUnicode_AsUTF8_text (t : String) :
    PyUnicode_AsUTF8 (text t) =
      some (String.mk (t.toList.takeWhile (fun c => c != Char.ofNat 0))) := by
  simp [PyUnicode_AsUTF8, text, utf8Chars_text]

theorem utf8Chars_none_iff (s : List CodePoint) :
    utf8Chars s = Option.none ↔ ∃ n, CodePoint.surrogate n ∈ s := by
  induction s with
  | nil => simp [utf8Chars]
  | cons c cs ih =>
    cases c with
    | scalar ch => simp [utf8Chars, ih]
    | surrogate n => simp [utf8Chars]

theorem PyUnicode_AsUTF8_none_iff (s : List CodePoint) :
    PyUnicode_AsUTF8 s = Option.none ↔ ∃ n, CodePoint.surrogate n ∈ s := by
  simp [PyUnicode_AsUTF8, utf8Chars_none_iff]

theorem load_not_text (d : Driver) (self : Context) (arg : PyObject) (w : World)
    (he : self.enabled = true) (ha : ∀ s, arg ≠ PyObject.str s) :
    Context_meth_load_opengl_function d self arg w = (PyResult.null, self, w) := by
  cases arg <;> simp_all [Context_meth_load_opengl_function]

theorem dealloc_enabled_live (self : Context) (w : World) (he : self.enabled = true)
    (hd : self.destroyed = false) :
    Context_dealloc self w =
      ({ self with enabled := false, hwnd := NULL, hdc := NULL, hglrc := NULL,
                   destroyed := true },
       { current := (self.restore_hdc, self.restore_hglrc),
         calls := w.calls ++
           [NativeCall.wglMakeCurrent self.restore_hdc self.restore_hglrc] ++
           releaseCalls self }) := by
  simp [Context_dealloc, he, hd, wglMakeCurrent, wglDeleteContext, ReleaseDC,
    DestroyWindow, World.log, releaseCalls]

theorem dealloc_enabled_destroyed (self : Context) (w : World) (he : self.enabled = true)
    (hd : self.destroyed = true) :
    Context_dealloc self w =
      ({ self with enabled := false },
       { current := (self.restore_hdc, self.restore_hglrc),
         calls := w.calls ++
           [NativeCall.wglMakeCurrent self.restore_hdc self.restore_hglrc] }) := by
  simp [Context_dealloc, he, hd, wglMakeCurrent]

theorem dealloc_idle_live (self : Context) (w : World) (he : self.enabled = false)
    (hd : self.destroyed = false) :
    Context_dealloc self w = release_spec self w := by
  simp [Context_dealloc, he, hd, wglDeleteContext, ReleaseDC, DestroyWindow, World.log,
    releaseCalls, release_spec]

theorem dealloc_idle_destroyed (self : Context) (w : World) (he : self.enabled = false)
    (hd : self.destroyed = true) :
    Context_dealloc self w = (self, w) := by
  simp [Context_dealloc, he, hd]

theorem init_parsed (self : Context) (args : List PyObject)
    (kwargs : List (String × PyObject)) (h : NativeHandles) (w : World) (reusable : Bool)
    (hp : PyArg_ParseTupleAndKeywords args kwargs false = some reusable) :
    Context_init self args kwargs h w =
      (0,
       { reusable := reusable, destroyed := false, enabled := false,
         opengl32 := h.opengl32, hwnd := h.hwnd, hdc := h.hdc, hglrc := h.hglrc,
         restore_hdc := NULL, restore_hglrc := NULL },
       { current := w.current,
         calls := w.calls ++
           [NativeCall.GetModuleHandle Option.none, NativeCall.RegisterClass,
            NativeCall.GetModuleHandle (some "opengl32"), NativeCall.CreateWindow,
            NativeCall.GetDC h.hwnd, NativeCall.DescribePixelFormat h.hdc 1,
            NativeCall.SetPixelFormat h.hdc 1, NativeCall.wglCreateContext h.hdc] }) := by
  simp [Context_init, hp, World.log]

theorem init_rejected (self : Context) (args : List PyObject)
    (kwargs : List (String × PyObject)) (h : NativeHandles) (w : World)
    (hp : PyArg_ParseTupleAndKeywords args kwargs false = Option.none) :
    Context_init self args kwargs h w = (-1, self, w) := by
  simp [Context_init, hp]

theorem init_returns_zero (self : Context) (args : List PyObject)
    (kwargs : List (String × PyObject)) (h : NativeHandles) (w : World)
    (h0 : (Context_init self args kwargs h w).1 = 0) :
    ∃ reusable, PyArg_ParseTupleAndKeywords args kwargs false = some reusable := by
  cases hp : PyArg_ParseTupleAndKeywords args kwargs false with
  | none => rw [init_rejected self args kwargs h w hp] at h0; simp at h0
  | some r => exact ⟨r, rfl⟩

/-! ## Activation and deactivation -/

/-- C3: on an instance that is neither enabled nor destroyed, `Context_meth_enter`
returns `None`; afterwards the saved pair is the pair that was current before the call,
the slot holds the instance's own `(hdc, hglrc)`, `enabled` is true, and `reusable`,
`destroyed`, the library handle and the three owned handles are as before. -/
theorem enter_activates (self : Context) (w : World) (he : self.enabled = false)
    (hd : self.destroyed = false) :
    (Context_meth_enter self w).1 = PyResult.none ∧
    (Context_meth_enter self w).1.ok = true ∧
    (Context_meth_enter self w).2.1.saved = w.current ∧
    (Context_meth_enter self w).2.2.current = self.pair ∧
    (Context_meth_enter self w).2.1.enabled = true ∧
    (Context_meth_enter self w).2.1.reusable = self.reusable ∧
    (Context_meth_enter self w).2.1.destroyed = self.destroyed ∧
    (Context_meth_enter self w).2.1.opengl32 = self.opengl32 ∧
    (Context_meth_enter self w).2.1.owned = self.owned := by
  rw [enter_ok self w he hd]
  simp [Context.saved, Context.pair, Context.owned, PyResult.ok]

theorem enter_activates_witness :
    (exampleContext true).enabled = false ∧ (exampleContext true).destroyed = false ∧
    (Context_meth_enter (exampleContext true) exampleWorld).2.1.saved = (5, 7) ∧
    (Context_meth_enter (exampleContext true) exampleWorld).2.2.current = (12, 13) :=
  ⟨rfl, rfl, (enter_activates (exampleContext true) exampleWorld rfl rfl).2.2.1,
    (enter_activates (exampleContext true) exampleWorld rfl rfl).2.2.2.1⟩

theorem exit_effect (self : Context) (w : World) (he : self.enabled = true) :
    (Context_meth_exit self w).1 = PyResult.none ∧
    (Context_meth_exit self w).2.2.calls =
      w.calls ++ (if self.reusable then [] else releaseCalls self) ++
        [NativeCall.wglMakeCurrent self.restore_hdc self.restore_hglrc] ∧
    (Context_meth_exit self w).2.2.current = self.saved ∧
    (Context_meth_exit self w).2.1.saved = (NULL, NULL) ∧
    (Context_meth_exit self w).2.1.enabled = false ∧
    (Context_meth_exit self w).2.1.reusable = self.reusable ∧
    (Context_meth_exit self w).2.1.destroyed = (self.destroyed || !self.reusable) ∧
    (Context_meth_exit self w).2.1.owned =
      (if self.reusable then self.owned else (NULL, NULL, NULL)) ∧
    ((∃ c ∈ (Context_meth_exit self w).2.2.calls.drop w.calls.length,
        c.isRelease = true) ↔ self.reusable = false) := by
  cases hr : self.reusable
  · rw [exit_single_use self w he hr]
    simp [Context.saved, Context.owned, releaseCalls, NativeCall.isRelease, hr]
  · rw [exit_reusable self w he hr]
    simp [Context.saved, Context.owned, NativeCall.isRelease, hr]

/-- C4: on an enabled instance, for both values of `reusable`, `Context_meth_exit`
returns `None`; the calls it issues are the three release calls exactly when `reusable`
is false, followed in every case by the `wglMakeCurrent` of the saved pair as the last
call; afterwards the slot holds the pair that was saved, both saved fields are null and
`enabled` is false; the owned handles are nulled and `destroyed` set exactly when
`reusable` is false, and are as before otherwise. -/
theorem exit_deactivates (self : Context) (w : World) (he : self.enabled = true) :
    (Context_meth_exit self w).1 = PyResult.none ∧
    (Context_meth_exit self w).2.2.calls =
      w.calls ++ (if self.reusable then [] else releaseCalls self) ++
        [NativeCall.wglMakeCurrent self.restore_hdc self.restore_hglrc] ∧
    (Context_meth_exit self w).2.2.current = self.saved ∧
    (Context_meth_exit self w).2.1.saved = (NULL, NULL) ∧
    (Context_meth_exit self w).2.1.enabled = false ∧
    (Context_meth_exit self w).2.1.reusable = self.reusable ∧
    (Context_meth_exit self w).2.1.destroyed = (self.destroyed || !self.reusable) ∧
    (Context_meth_exit self w).2.1.owned =
      (if self.reusable then self.owned else (NULL, NULL, NULL)) ∧
    ((∃ c ∈ (Context_meth_exit self w).2.2.calls.drop w.calls.length,
        c.isRelease = true) ↔ self.reusable = false) :=
  exit_effect self w he

theorem exit_deactivates_witness :
    (Context_meth_enter (exampleContext false) exampleWorld).2.1.enabled = true ∧
    (Context_meth_exit (Context_meth_enter (exampleContext false) exampleWorld).2.1
      (Context_meth_enter (exampleContext false) exampleWorld).2.2).2.2.current = (5, 7) :=
  ⟨rfl, (exit_deactivates (Context_meth_enter (exampleContext false) exampleWorld).2.1
    (Context_meth_enter (exampleContext false) exampleWorld).2.2 rfl).2.2.1⟩

theorem activateDeactivate_reusable (self : Context) (w : World)
    (hr : self.reusable = true) (he : self.enabled = false) (hd : self.destroyed = false) :
    activateDeactivate self w =
      (PyResult.none,
       { self with restore_hdc := NULL, restore_hglrc := NULL },
       { current := w.current,
         calls := w.calls ++ [NativeCall.wglGetCurrentDC, NativeCall.wglGetCurrentContext,
           NativeCall.wglMakeCurrent self.hdc self.hglrc,
           NativeCall.wglMakeCurrent w.current.1 w.current.2] }) := by
  have e := enter_ok self w he hd
  have x := exit_reusable (Context_meth_enter self w).2.1 (Context_meth_enter self w).2.2
    (by rw [e]) (by rw [e]; exact hr)
  unfold activateDeactivate
  rw [x, e]
  cases self
  simp_all

theorem activateDeactivate_single_use (self : Context) (w : World)
    (hr : self.reusable = false) (he : self.enabled = false) (hd : self.destroyed = false) :
    activateDeactivate self w =
      (PyResult.none,
       { self with hwnd := NULL, hdc := NULL, hglrc := NULL, destroyed := true,
                   restore_hdc := NULL, restore_hglrc := NULL },
       { current := w.current,
         calls := w.calls ++ [NativeCall.wglGetCurrentDC, NativeCall.wglGetCurrentContext,
           NativeCall.wglMakeCurrent self.hdc self.hglrc] ++ releaseCalls self ++
           [NativeCall.wglMakeCurrent w.current.1 w.current.2] }) := by
  have e := enter_ok self w he hd
  have x := exit_single_use (Context_meth_enter self w).2.1 (Context_meth_enter self w).2.2
    (by rw [e]) (by rw [e]; exact hr)
  unfold activateDeactivate
  rw [x, e]
  cases self
  simp_all [releaseCalls]

theorem cycles_succ (n : Nat) (self : Context) (w : World) :
    cycles (n + 1) self w =
      ((Context_meth_enter self w).1 :: (activateDeactivate self w).1 ::
         (cycles n (activateDeactivate self w).2.1 (activateDeactivate self w).2.2).1,
       (cycles n (activateDeactivate self w).2.1 (activateDeactivate self w).2.2).2.1,
       (cycles n (activateDeactivate self w).2.1 (activateDeactivate self w).2.2).2.2) := by
  rfl

/-- C1: on a reusable instance that is neither enabled nor destroyed, for every `n`
(in particular every `n ≥ 1`), all `2 * n` calls of `n` consecutive Activate/Deactivate
pairs return `None`; afterwards `enabled` and `destroyed` are false, the instance is still
reusable, the three owned handles are as before, and the slot holds the pair it held
before the first Activate. -/
theorem cycles_restore (n : Nat) (self : Context) (w : World) (hr : self.reusable = true)
    (he : self.enabled = false) (hd : self.destroyed = false) :
    (cycles n self w).1 = List.replicate (2 * n) PyResult.none ∧
    (∀ r ∈ (cycles n self w).1, r.ok = true) ∧
    (cycles n self w).2.1.enabled = false ∧
    (cycles n self w).2.1.destroyed = false ∧
    (cycles n self w).2.1.reusable = true ∧
    (cycles n self w).2.1.owned = self.owned ∧
    (cycles n self w).2.2.current = w.current := by
  induction n generalizing self w with
  | zero => simp [cycles, he, hd, hr]
  | succ n ih =>
    have e := activateDeactivate_reusable self w hr he hd
    have h2 := ih (activateDeactivate self w).2.1 (activateDeactivate self w).2.2
      (by rw [e]; exact hr) (by rw [e]; exact he) (by rw [e]; exact hd)
    obtain ⟨a1, a2, a3, a4, a5, a6, a7⟩ := h2
    have e1 : (Context_meth_enter self w).1 = PyResult.none := by
      rw [enter_ok self w he hd]
    have e2 : (activateDeactivate self w).1 = PyResult.none := by rw [e]
    have e3 : (activateDeactivate self w).2.1.owned = self.owned := by rw [e]; rfl
    have e4 : (activateDeactivate self w).2.2.current = w.current := by rw [e]
    rw [cycles_succ]
    refine ⟨?_, ?_, a3, a4, a5, ?_, ?_⟩
    · show _ :: _ :: _ = _
      rw [a1, e1, e2]; simp [Nat.mul_succ, List.replicate_succ]
    · intro r hmem
      simp only [List.mem_cons] at hmem
      rcases hmem with h | h | h
      · rw [h, e1]; rfl
      · rw [h, e2]; rfl
      · exact a2 r h
    · exact a6.trans e3
    · exact a7.trans e4

theorem cycles_restore_witness :
    (exampleContext true).reusable = true ∧ (exampleContext true).enabled = false ∧
    (exampleContext true).destroyed = false ∧
    (cycles 3 (exampleContext true) exampleWorld).1 = List.replicate 6 PyResult.none ∧
    (cycles 3 (exampleContext true) exampleWorld).2.2.current = (5, 7) :=
  ⟨rfl, rfl, rfl, (cycles_restore 3 (exampleContext true) exampleWorld rfl rfl rfl).1,
    (cycles_restore 3 (exampleContext true) exampleWorld rfl rfl rfl).2.2.2.2.2.2⟩

/-- C2: on an instance with `reusable` false that is neither enabled nor destroyed, as
constructed, Activate and then Deactivate both return `None` and leave `destroyed` true,
`enabled` false and `hwnd`, `hdc`, `hglrc` null; an Activate after that, in any world,
fails with `DestroyedError` and changes neither the instance nor the world. -/
theorem single_use_then_destroyed (self : Context) (w : World)
    (hr : self.reusable = false) (he : self.enabled = false)
    (hd : self.destroyed = false) :
    (Context_meth_enter self w).1 = PyResult.none ∧
    (activateDeactivate self w).1 = PyResult.none ∧
    (activateDeactivate self w).2.1.destroyed = true ∧
    (activateDeactivate self w).2.1.enabled = false ∧
    (activateDeactivate self w).2.1.owned = (NULL, NULL, NULL) ∧
    ∀ w2 : World, Context_meth_enter (activateDeactivate self w).2.1 w2 =
      (DestroyedError, (activateDeactivate self w).2.1, w2) := by
  rw [activateDeactivate_single_use self w hr he hd, enter_ok self w he hd]
  refine ⟨rfl, rfl, rfl, he, rfl, ?_⟩
  intro w2
  exact enter_destroyed _ w2 he rfl

theorem single_use_then_destroyed_witness :
    (exampleContext false).reusable = false ∧ (exampleContext false).enabled = false ∧
    (exampleContext false).destroyed = false ∧
    (activateDeactivate (exampleContext false) exampleWorld).2.1.destroyed = true ∧
    (Context_meth_enter (activateDeactivate (exampleContext false) exampleWorld).2.1
      (activateDeactivate (exampleContext false) exampleWorld).2.2).1 = DestroyedError :=
  ⟨rfl, rfl, rfl,
    (single_use_then_destroyed (exampleContext false) exampleWorld rfl rfl rfl).2.2.1,
    congrArg Prod.fst
      ((single_use_then_destroyed (exampleContext false) exampleWorld rfl rfl rfl).2.2.2.2.2
        (activateDeactivate (exampleContext false) exampleWorld).2.2)⟩

/-! ## Failure modes -/

/-- C6: `Context_meth_enter` fails exactly when the instance is enabled or destroyed; the
failure is `AlreadyEnabledError` whenever `enabled` is true and `DestroyedError` when
`destroyed` is true and `enabled` is false; on an instance that is neither, the call
succeeds and a second call right after it fails with `AlreadyEnabledError`, leaving
the instance and the whole native world, the slot included, as they were after the
first. -/
theorem enter_fails_iff (self : Context) (w : World) :
    ((Context_meth_enter self w).1.failed = true ↔
      (self.enabled = true ∨ self.destroyed = true)) ∧
    (self.enabled = true → (Context_meth_enter self w).1 = AlreadyEnabledError) ∧
    (self.enabled = false → self.destroyed = true →
      (Context_meth_enter self w).1 = DestroyedError) ∧
    (self.enabled = false → self.destroyed = false →
      (Context_meth_enter self w).1.ok = true ∧
      Context_meth_enter (Context_meth_enter self w).2.1 (Context_meth_enter self w).2.2 =
        (AlreadyEnabledError, (Context_meth_enter self w).2.1,
          (Context_meth_enter self w).2.2)) := by
  refine ⟨?_, ?_, ?_, ?_⟩
  · cases he : self.enabled
    · cases hd : self.destroyed
      · rw [enter_ok self w he hd]; simp [PyResult.failed, PyResult.ok]
      · rw [enter_destroyed self w he hd]
        simp [PyResult.failed, PyResult.ok, DestroyedError]
    · rw [enter_enabled self w he]
      simp [PyResult.failed, PyResult.ok, AlreadyEnabledError]
  · intro he; rw [enter_enabled self w he]
  · intro he hd; rw [enter_destroyed self w he hd]
  · intro he hd
    refine ⟨by rw [enter_ok self w he hd]; rfl, ?_⟩
    exact enter_enabled _ _ (by rw [enter_ok self w he hd])

theorem enter_fails_iff_witness :
    (exampleContext true).enabled = false ∧ (exampleContext true).destroyed = false ∧
    (Context_meth_enter (Context_meth_enter (exampleContext true) exampleWorld).2.1
      (Context_meth_enter (exampleContext true) exampleWorld).2.2).1 =
        AlreadyEnabledError :=
  ⟨rfl, rfl, congrArg Prod.fst
    ((enter_fails_iff (exampleContext true) exampleWorld).2.2.2 rfl rfl).2⟩

/-- C7: `Context_meth_exit` fails exactly when `enabled` is false, and the failure is then
`NotEnabledError`; in particular it fails so on the instance that a successful
construction yields, in any world. -/
theorem exit_fails_iff (self : Context) (w : World) :
    ((Context_meth_exit self w).1 = NotEnabledError ↔ self.enabled = false) ∧
    ((Context_meth_exit self w).1.failed = true ↔ self.enabled = false) ∧
    (∀ (args : List PyObject) (kwargs : List (String × PyObject)) (h : NativeHandles)
        (w0 : World), (Construct args kwargs h w0).1 = 0 →
      (Context_meth_exit (Construct args kwargs h w0).2.1 w).1 = NotEnabledError) := by
  refine ⟨?_, ?_, ?_⟩
  · cases he : self.enabled
    · rw [exit_not_enabled self w he]; simp
    · cases hr : self.reusable
      · rw [exit_single_use self w he hr]; simp [NotEnabledError]
      · rw [exit_reusable self w he hr]; simp [NotEnabledError]
  · cases he : self.enabled
    · rw [exit_not_enabled self w he]; simp [NotEnabledError, PyResult.failed, PyResult.ok]
    · cases hr : self.reusable
      · rw [exit_single_use self w he hr]; simp [PyResult.failed, PyResult.ok]
      · rw [exit_reusable self w he hr]; simp [PyResult.failed, PyResult.ok]
  · intro args kwargs h w0 h0
    obtain ⟨r, hp⟩ := init_returns_zero Context.zero args kwargs h w0 h0
    have e := init_parsed Context.zero args kwargs h w0 r hp
    unfold Construct
    rw [e]
    rw [exit_not_enabled _ w rfl]

theorem exit_fails_iff_witness :
    (Construct [] [] ⟨1, 10, 11, 12, 13⟩ exampleWorld).1 = 0 ∧
    (Context_meth_exit (Construct [] [] ⟨1, 10, 11, 12, 13⟩ exampleWorld).2.1
      exampleWorld).1 = NotEnabledError :=
  ⟨rfl, (exit_fails_iff Context.zero exampleWorld).2.2 [] [] ⟨1, 10, 11, 12, 13⟩
    exampleWorld rfl⟩

/-- C8: whenever `Context_meth_enter`, `Context_meth_exit` or
`Context_meth_load_opengl_function` (with any argument) fails, every field of the instance
and the whole native world are as before the call: the slot is unchanged and the log of
native calls has not grown, so no make-current or release call was issued. -/
theorem failure_atomic (d : Driver) (self : Context) (arg : PyObject) (w : World) :
    ((Context_meth_enter self w).1.failed = true →
      (Context_meth_enter self w).2 = (self, w)) ∧
    ((Context_meth_exit self w).1.failed = true →
      (Context_meth_exit self w).2 = (self, w)) ∧
    ((Context_meth_load_opengl_function d self arg w).1.failed = true →
      (Context_meth_load_opengl_function d self arg w).2 = (self, w)) := by
  refine ⟨?_, ?_, ?_⟩
  · cases he : self.enabled
    · cases hd : self.destroyed
      · rw [enter_ok self w he hd]; simp [PyResult.failed, PyResult.ok]
      · rw [enter_destroyed self w he hd]; simp
    · rw [enter_enabled self w he]; simp
  · cases he : self.enabled
    · rw [exit_not_enabled self w he]; simp
    · cases hr : self.reusable
      · rw [exit_single_use self w he hr]; simp [PyResult.failed, PyResult.ok]
      · rw [exit_reusable self w he hr]; simp [PyResult.failed, PyResult.ok]
  · cases he : self.enabled
    · rw [load_not_enabled d self arg w he]; simp
    · cases arg with
      | str s =>
        rw [load_str d self s w he]
        cases PyUnicode_AsUTF8 s <;> simp [PyResult.failed, PyResult.ok]
      | none => rw [load_not_text d self _ w he (by simp)]; simp
      | bool b => rw [load_not_text d self _ w he (by simp)]; simp
      | long n => rw [load_not_text d self _ w he (by simp)]; simp
      | bytes s => rw [load_not_text d self _ w he (by simp)]; simp

theorem failure_atomic_witness :
    (Context_meth_exit (exampleContext true) exampleWorld).1.failed = true ∧
    (Context_meth_exit (exampleContext true) exampleWorld).2 =
      (exampleContext true, exampleWorld) :=
  ⟨rfl, (failure_atomic exampleDriver (exampleContext true) PyObject.none
    exampleWorld).2.1 rfl⟩

/-! ## Function resolution -/

/-- C9, as stated, fails: on an enabled instance and the text `"\ud800"`, a `str` of one
lone surrogate, `PyUnicode_AsUTF8` returns `NULL` with `UnicodeEncodeError` set; the two
lookups run with a `NULL` name, both return null, and the function returns the integer 0
while that exception is set, so the zero address does not come back without an error. -/
theorem load_lone_surrogate_sets_error :
    (exampleEnabled true).enabled = true ∧
    PyUnicode_AsUTF8 [CodePoint.surrogate 0] = Option.none ∧
    Context_meth_load_opengl_function exampleDriver (exampleEnabled true)
      (PyObject.str [CodePoint.surrogate 0]) (exampleEnabledWorld true) =
        (PyResult.long_raised 0 PyExc.UnicodeEncodeError, exampleEnabled true,
         { current := (12, 13),
           calls := (exampleEnabledWorld true).calls ++
             [NativeCall.GetProcAddress 10 Option.none,
              NativeCall.wglGetProcAddress Option.none] }) ∧
    (Context_meth_load_opengl_function exampleDriver (exampleEnabled true)
      (PyObject.str [CodePoint.surrogate 0]) (exampleEnabledWorld true)).1.exception =
        some PyExc.UnicodeEncodeError := by
  have h := load_surrogate exampleDriver (exampleEnabled true) [CodePoint.surrogate 0]
    (exampleEnabledWorld true) rfl rfl
  refine ⟨rfl, rfl, ?_, ?_⟩
  · rw [h]; rfl
  · rw [h]; rfl

/-- C9, amended: for a text argument that holds no lone surrogate, `PyUnicode_AsUTF8`
yields a name, and `Context_meth_load_opengl_function` fails with `NotEnabledError` when
the instance is not enabled; when it is enabled the call succeeds with no exception set
and returns the address from `GetProcAddress` on the base module if that is non-null and
the result of `wglGetProcAddress` otherwise, so it returns 0 exactly when both lookups
return null; `wglGetProcAddress` is called exactly when `GetProcAddress` returned null;
the instance and the slot are unchanged. -/
theorem load_resolves (d : Driver) (self : Context) (s : List CodePoint) (w : World)
    (hs : ∀ n, CodePoint.surrogate n ∉ s) :
    (PyUnicode_AsUTF8 s).isSome = true ∧
    (self.enabled = false →
      Context_meth_load_opengl_function d self (PyObject.str s) w =
        (NotEnabledError, self, w)) ∧
    (self.enabled = true →
      (Context_meth_load_opengl_function d self (PyObject.str s) w).1 =
        PyResult.long
          (if d.exports self.opengl32 (PyUnicode_AsUTF8 s) ≠ NULL
           then d.exports self.opengl32 (PyUnicode_AsUTF8 s)
           else d.extensions w.current (PyUnicode_AsUTF8 s)) ∧
      (Context_meth_load_opengl_function d self (PyObject.str s) w).1.ok = true ∧
      (Context_meth_load_opengl_function d self (PyObject.str s) w).1.exception =
        Option.none ∧
      ((Context_meth_load_opengl_function d self (PyObject.str s) w).1 = PyResult.long 0 ↔
        (d.exports self.opengl32 (PyUnicode_AsUTF8 s) = NULL ∧
         d.extensions w.current (PyUnicode_AsUTF8 s) = NULL)) ∧
      ((∃ name, NativeCall.wglGetProcAddress name ∈
          (Context_meth_load_opengl_function d self (PyObject.str s) w).2.2.calls.drop
            w.calls.length) ↔
        d.exports self.opengl32 (PyUnicode_AsUTF8 s) = NULL) ∧
      (Context_meth_load_opengl_function d self (PyObject.str s) w).2.1 = self ∧
      (Context_meth_load_opengl_function d self (PyObject.str s) w).2.2.current =
        w.current) := by
  have hsome : ∃ name, PyUnicode_AsUTF8 s = some name := by
    cases hn : PyUnicode_AsUTF8 s with
    | none =>
      obtain ⟨n, hmem⟩ := (PyUnicode_AsUTF8_none_iff s).1 hn
      exact absurd hmem (hs n)
    | some name => exact ⟨name, rfl⟩
  obtain ⟨name, hn⟩ := hsome
  refine ⟨by rw [hn]; rfl, fun he => load_not_enabled d self _ w he, ?_⟩
  intro he
  rw [load_text d self s name w he hn, hn]
  by_cases h : d.exports self.opengl32 (some name) = 0
  · simp [h, PyResult.ok, PyResult.exception]
  · simp [h, PyResult.ok, PyResult.exception]

theorem load_resolves_witness :
    (∀ n, CodePoint.surrogate n ∉ text "glCreateShader") ∧
    (Context_meth_enter (exampleContext true) exampleWorld).2.1.enabled = true ∧
    (Context_meth_load_opengl_function exampleDriver
      (Context_meth_enter (exampleContext true) exampleWorld).2.1
      (PyObject.str (text "glCreateShader"))
      (Context_meth_enter (exampleContext true) exampleWorld).2.2).1.ok = true :=
  ⟨by intro n; simp [text], rfl, ((load_resolves exampleDriver
    (Context_meth_enter (exampleContext true) exampleWorld).2.1 (text "glCreateShader")
    (Context_meth_enter (exampleContext true) exampleWorld).2.2
    (by intro n; simp [text])).2.2 rfl).2.1⟩

/-! ## Nesting -/

theorem activateAll_cons (c : Context) (cs : List Context) (w : World) :
    activateAll (c :: cs) w =
      ((Context_meth_enter c w).1 :: (activateAll cs (Context_meth_enter c w).2.2).1,
       (Context_meth_enter c w).2.1 :: (activateAll cs (Context_meth_enter c w).2.2).2.1,
       (activateAll cs (Context_meth_enter c w).2.2).2.2) := by
  rfl

theorem deactivateRev_cons (c : Context) (cs : List Context) (w : World) :
    deactivateRev (c :: cs) w =
      ((deactivateRev cs w).1 ++ [(Context_meth_exit c (deactivateRev cs w).2.2).1],
       (Context_meth_exit c (deactivateRev cs w).2.2).2.1 :: (deactivateRev cs w).2.1,
       (Context_meth_exit c (deactivateRev cs w).2.2).2.2) := by
  rfl

theorem activateAll_append (pre post : List Context) (w : World) :
    activateAll (pre ++ post) w =
      ((activateAll pre w).1 ++ (activateAll post (activateAll pre w).2.2).1,
       (activateAll pre w).2.1 ++ (activateAll post (activateAll pre w).2.2).2.1,
       (activateAll post (activateAll pre w).2.2).2.2) := by
  induction pre generalizing w with
  | nil => simp [activateAll]
  | cons c cs ih =>
    rw [List.cons_append, activateAll_cons, ih, activateAll_cons]
    simp

theorem activateAll_fresh (cs : List Context) (w : World)
    (hfresh : ∀ c ∈ cs, c.enabled = false ∧ c.destroyed = false) :
    (activateAll cs w).1 = List.replicate cs.length PyResult.none ∧
    (activateAll cs w).2.1.length = cs.length ∧
    (activateAll cs w).2.1.map Context.owned = cs.map Context.owned ∧
    savedChain w.current (activateAll cs w).2.1 ∧
    (activateAll cs w).2.2.current = topPair w.current cs := by
  induction cs generalizing w with
  | nil => simp [activateAll, savedChain, topPair]
  | cons c cs ih =>
    have hc := hfresh c (List.mem_cons_self c cs)
    have e := enter_ok c w hc.1 hc.2
    have h := ih (Context_meth_enter c w).2.2
      (fun x hx => hfresh x (List.mem_cons_of_mem c hx))
    obtain ⟨h1, h2, h3, h4, h5⟩ := h
    have ecur : (Context_meth_enter c w).2.2.current = c.pair := by rw [e]; rfl
    rw [ecur] at h4 h5
    rw [activateAll_cons]
    refine ⟨?_, ?_, ?_, ?_, ?_⟩
    · show _ :: _ = _
      rw [h1, e]; rfl
    · simp [h2]
    · show _ :: _ = _
      rw [h3, e]; rfl
    · show savedChain _ (_ :: _)
      refine ⟨by rw [e], by rw [e]; rfl, ?_⟩
      have : (Context_meth_enter c w).2.1.pair = c.pair := by rw [e]; rfl
      rw [this]; exact h4
    · exact h5

theorem deactivateRev_chain (cs : List Context) (p : Handle × Handle) (w : World)
    (hc : savedChain p cs) :
    (deactivateRev cs w).1 = List.replicate cs.length PyResult.none ∧
    (cs ≠ [] → (deactivateRev cs w).2.2.current = p) := by
  induction cs generalizing p with
  | nil => simp [deactivateRev]
  | cons c cs ih =>
    obtain ⟨he, hs, ht⟩ := hc
    have h := exit_effect c (deactivateRev cs w).2.2 he
    rw [deactivateRev_cons]
    refine ⟨?_, ?_⟩
    · show _ ++ [_] = _
      rw [(ih c.pair ht).1, h.1]
      simp [List.replicate_succ']
    · intro _
      show (Context_meth_exit c (deactivateRev cs w).2.2).2.2.current = p
      rw [h.2.2.1, hs]

/-- C5: for instances `pre ++ post`, each neither enabled nor destroyed and with any
`reusable` flag, that are activated in order on one thread, every activation returns
`None` and the slot then holds the own pair of the last instance; when the instances of
`post` are then deactivated in reverse order every deactivation returns `None`, and the
slot holds the own `(hdc, hglrc)` of the last instance of `pre`, or, when `pre` is empty
(all instances deactivated), the pair that was current before the first activation. -/
theorem nesting_restores (pre post : List Context) (w : World)
    (hfresh : ∀ c ∈ pre ++ post, c.enabled = false ∧ c.destroyed = false) :
    (activateAll (pre ++ post) w).1 =
      List.replicate (pre ++ post).length PyResult.none ∧
    (activateAll (pre ++ post) w).2.1.map Context.owned =
      (pre ++ post).map Context.owned ∧
    (activateAll (pre ++ post) w).2.2.current = topPair w.current (pre ++ post) ∧
    (nest pre post w).1 = List.replicate post.length PyResult.none ∧
    (nest pre post w).2.2.current = topPair w.current pre := by
  have hA := activateAll_fresh (pre ++ post) w hfresh
  have hpre := activateAll_fresh pre w
    (fun c hc => hfresh c (List.mem_append_left post hc))
  have hpost := activateAll_fresh post (activateAll pre w).2.2
    (fun c hc => hfresh c (List.mem_append_right pre hc))
  refine ⟨hA.1, hA.2.2.1, hA.2.2.2.2, ?_, ?_⟩
  · unfold nest
    rw [activateAll_append]
    simp only []
    rw [← hpre.2.1, List.drop_left]
    have h := deactivateRev_chain _ _ (activateAll post (activateAll pre w).2.2).2.2
      hpost.2.2.2.1
    rw [h.1, hpost.2.1]
  · unfold nest
    rw [activateAll_append]
    simp only []
    rw [← hpre.2.1, List.drop_left]
    have h := deactivateRev_chain _ _ (activateAll post (activateAll pre w).2.2).2.2
      hpost.2.2.2.1
    cases post with
    | nil => simp [activateAll, deactivateRev, hpre.2.2.2.2]
    | cons c cs =>
      rw [h.2 (by rw [activateAll_cons]; simp), hpre.2.2.2.2]

theorem nesting_restores_witness :
    (∀ c ∈ [exampleContext false] ++ [exampleContextB true],
      c.enabled = false ∧ c.destroyed = false) ∧
    (nest [exampleContext false] [exampleContextB true] exampleWorld).2.2.current =
      (12, 13) :=
  ⟨by decide, (nesting_restores [exampleContext false] [exampleContextB true] exampleWorld
    (by decide)).2.2.2.2⟩

/-! ## The method table and the argument check -/

/-- C10: the entry `load_opengl_function` of `Context_methods` points to
`Context_meth_exit`: a call of that entry with one argument is a Deactivate, whatever the
argument; on an enabled reusable instance and the name `glGetString`, which the
resolution routine resolves to 4096, the call returns `None` instead of an address and
leaves the instance not enabled, with the slot switched back to the saved pair. -/
theorem load_opengl_function_entry :
    (∀ (d : Driver) (self : Context) (arg : PyObject) (w : World),
      call_method d "load_opengl_function" self [arg] w = Context_meth_exit self w) ∧
    (Context_meth_load_opengl_function exampleDriver (exampleEnabled true)
      (PyObject.str (text "glGetString")) (exampleEnabledWorld true)).1 = PyResult.long 4096 ∧
    (call_method exampleDriver "load_opengl_function" (exampleEnabled true)
      [PyObject.str (text "glGetString")] (exampleEnabledWorld true)).1 = PyResult.none ∧
    (call_method exampleDriver "load_opengl_function" (exampleEnabled true)
      [PyObject.str (text "glGetString")] (exampleEnabledWorld true)).2.1.enabled = false ∧
    (exampleEnabledWorld true).current = (12, 13) ∧
    (call_method exampleDriver "load_opengl_function" (exampleEnabled true)
      [PyObject.str (text "glGetString")] (exampleEnabledWorld true)).2.2.current = (5, 7) := by
  have h : ∀ (d : Driver) (self : Context) (arg : PyObject) (w : World),
      call_method d "load_opengl_function" self [arg] w = Context_meth_exit self w := by
    intro d self arg w
    simp [call_method, Context_methods, List.lookup, invoke]
  refine ⟨h, ?_, ?_, ?_, rfl, ?_⟩
  · rw [load_text exampleDriver (exampleEnabled true) (text "glGetString") "glGetString"
      (exampleEnabledWorld true) rfl (by rw [PyUnicode_AsUTF8_text]; decide)]
    simp [exampleDriver]
  · rw [h]; rfl
  · rw [h]; rfl
  · rw [h]; rfl

/-- C11: on an enabled instance and an argument that is not a text value (here any
integer), `Context_meth_load_opengl_function` returns a bare `NULL`: the result is a
failure, but no exception of any class was raised for the caller; the instance and the
native world are unchanged, so no lookup was made. -/
theorem load_non_text_returns_bare_null (d : Driver) (n : Int) :
    Context_meth_load_opengl_function d (exampleEnabled true) (PyObject.long n)
      (exampleEnabledWorld true) =
        (PyResult.null, exampleEnabled true, exampleEnabledWorld true) ∧
    (∀ (exc : PyExc) (msg : String),
      (Context_meth_load_opengl_function d (exampleEnabled true) (PyObject.long n)
        (exampleEnabledWorld true)).1 ≠ PyResult.raised exc msg) ∧
    Context_meth_load_opengl_function d (exampleContext true) (PyObject.long n)
      exampleWorld = (NotEnabledError, exampleContext true, exampleWorld) := by
  have h := load_not_text d (exampleEnabled true) (PyObject.long n)
    (exampleEnabledWorld true) rfl (by simp)
  refine ⟨h, ?_, load_not_enabled d _ _ _ rfl⟩
  intro exc msg
  rw [h]
  simp

/-! ## State invariants -/

theorem enter_invariant (self : Context) (w : World) (hinv : invariant self) :
    invariant (Context_meth_enter self w).2.1 := by
  cases he : self.enabled
  · cases hd : self.destroyed
    · rw [enter_ok self w he hd]
      intro h
      simp [hd] at h
    · rw [enter_destroyed self w he hd]; exact hinv
  · rw [enter_enabled self w he]; exact hinv

theorem exit_invariant (self : Context) (w : World) (hinv : invariant self) :
    invariant (Context_meth_exit self w).2.1 := by
  cases he : self.enabled
  · rw [exit_not_enabled self w he]; exact hinv
  · cases hr : self.reusable
    · rw [exit_single_use self w he hr]
      intro _
      exact ⟨rfl, rfl, rfl, rfl⟩
    · rw [exit_reusable self w he hr]
      intro h
      have h2 := hinv h
      rw [he] at h2
      simp at h2

theorem load_invariant (d : Driver) (self : Context) (arg : PyObject) (w : World)
    (hinv : invariant self) :
    invariant (Context_meth_load_opengl_function d self arg w).2.1 := by
  have h : (Context_meth_load_opengl_function d self arg w).2.1 = self := by
    cases he : self.enabled
    · rw [load_not_enabled d self arg w he]
    · cases arg with
      | str s => rw [load_str d self s w he]
      | none => rw [load_not_text d self _ w he (by simp)]
      | bool b => rw [load_not_text d self _ w he (by simp)]
      | long n => rw [load_not_text d self _ w he (by simp)]
      | bytes s => rw [load_not_text d self _ w he (by simp)]
  rw [h]; exact hinv

theorem dealloc_invariant (self : Context) (w : World) (hinv : invariant self) :
    invariant (Context_dealloc self w).1 ∧ (Context_dealloc self w).1.destroyed = true ∧
    (Context_dealloc self w).1.enabled = false := by
  cases he : self.enabled
  · cases hd : self.destroyed
    · rw [dealloc_idle_live self w he hd]
      exact ⟨fun _ => ⟨he, rfl, rfl, rfl⟩, rfl, he⟩
    · rw [dealloc_idle_destroyed self w he hd]
      exact ⟨hinv, hd, he⟩
  · cases hd : self.destroyed
    · rw [dealloc_enabled_live self w he hd]
      exact ⟨fun _ => ⟨rfl, rfl, rfl, rfl⟩, rfl, rfl⟩
    · have h2 := hinv hd
      rw [he] at h2
      simp at h2

theorem step_invariant (d : Driver) (op : Op) (s : Context × World)
    (hinv : invariant s.1) : invariant (step d op s).1 := by
  cases op with
  | Activate => exact enter_invariant s.1 s.2 hinv
  | Deactivate => exact exit_invariant s.1 s.2 hinv
  | ResolveFunction arg => exact load_invariant d s.1 arg s.2 hinv
  | Teardown => exact (dealloc_invariant s.1 s.2 hinv).1

theorem run_invariant (d : Driver) (ops : List Op) (s : Context × World)
    (hinv : invariant s.1) : invariant (run d ops s).1 := by
  induction ops generalizing s with
  | nil => exact hinv
  | cons op ops ih => exact ih (step d op s) (step_invariant d op s hinv)

theorem construct_fields (args : List PyObject) (kwargs : List (String × PyObject))
    (h : NativeHandles) (w : World) (h0 : (Construct args kwargs h w).1 = 0) :
    (Construct args kwargs h w).2.1.destroyed = false ∧
    (Construct args kwargs h w).2.1.enabled = false ∧
    (Construct args kwargs h w).2.1.saved = (NULL, NULL) ∧
    (Construct args kwargs h w).2.1.owned = (h.hwnd, h.hdc, h.hglrc) ∧
    PyArg_ParseTupleAndKeywords args kwargs false =
      some (Construct args kwargs h w).2.1.reusable ∧
    (Construct args kwargs h w).2.2.current = w.current ∧
    (∀ c ∈ issued w (Construct args kwargs h w).2.2,
      c.isRelease = false ∧ c.isMakeCurrent = false) := by
  obtain ⟨r, hp⟩ := init_returns_zero Context.zero args kwargs h w h0
  unfold Construct
  rw [init_parsed Context.zero args kwargs h w r hp]
  refine ⟨rfl, rfl, rfl, rfl, hp, rfl, ?_⟩
  simp [issued, NativeCall.isRelease, NativeCall.isMakeCurrent]

/-- C12: a construction that succeeds yields an instance with `reusable` equal to the
truth value of its argument (false when no argument is given), `destroyed` false,
`enabled` false and both saved handles null, which satisfies the invariant that a
destroyed instance is not enabled and has `hwnd`, `hdc` and `hglrc` null; and each of
`Context_meth_enter`, `Context_meth_exit`, `Context_meth_load_opengl_function` and
`Context_dealloc`, succeeding or failing, in any world, preserves that invariant, under
which an enabled instance is not destroyed. -/
theorem invariant_established_and_preserved (d : Driver) (self : Context)
    (arg : PyObject) (w : World) (hinv : invariant self) :
    invariant (Context_meth_enter self w).2.1 ∧
    invariant (Context_meth_exit self w).2.1 ∧
    invariant (Context_meth_load_opengl_function d self arg w).2.1 ∧
    invariant (Context_dealloc self w).1 ∧
    (self.enabled = true → self.destroyed = false) ∧
    (∀ (args : List PyObject) (kwargs : List (String × PyObject)) (h : NativeHandles)
        (w0 : World), (Construct args kwargs h w0).1 = 0 →
      invariant (Construct args kwargs h w0).2.1 ∧
      (Construct args kwargs h w0).2.1.destroyed = false ∧
      (Construct args kwargs h w0).2.1.enabled = false ∧
      (Construct args kwargs h w0).2.1.restore_hdc = NULL ∧
      (Construct args kwargs h w0).2.1.restore_hglrc = NULL ∧
      PyArg_ParseTupleAndKeywords args kwargs false =
        some (Construct args kwargs h w0).2.1.reusable) ∧
    (∀ (h : NativeHandles) (w0 : World),
      (Construct [] [] h w0).1 = 0 ∧ (Construct [] [] h w0).2.1.reusable = false) ∧
    (∀ (x : PyObject) (h : NativeHandles) (w0 : World),
      (Construct [x] [] h w0).1 = 0 ∧
      (Construct [x] [] h w0).2.1.reusable = PyObject_IsTrue x ∧
      (Construct [] [("reusable", x)] h w0).1 = 0 ∧
      (Construct [] [("reusable", x)] h w0).2.1.reusable = PyObject_IsTrue x) := by
  refine ⟨enter_invariant self w hinv, exit_invariant self w hinv,
    load_invariant d self arg w hinv, (dealloc_invariant self w hinv).1, ?_, ?_, ?_, ?_⟩
  · intro he
    cases hd : self.destroyed
    · rfl
    · have h2 := hinv hd
      rw [he] at h2
      simp at h2
  · intro args kwargs h w0 h0
    have hc := construct_fields args kwargs h w0 h0
    refine ⟨?_, hc.1, hc.2.1, ?_, ?_, hc.2.2.2.2.1⟩
    · intro hd
      rw [hc.1] at hd
      simp at hd
    · have := hc.2.2.1
      simp only [Context.saved, Prod.mk.injEq] at this
      exact this.1
    · have := hc.2.2.1
      simp only [Context.saved, Prod.mk.injEq] at this
      exact this.2
  · intro h w0
    exact ⟨rfl, rfl⟩
  · intro x h w0
    refine ⟨rfl, rfl, ?_, ?_⟩
    · simp [Construct, Context_init, PyArg_ParseTupleAndKeywords]
    · simp [Construct, Context_init, PyArg_ParseTupleAndKeywords]

theorem invariant_established_and_preserved_witness :
    invariant (exampleEnabled false) ∧
    invariant (Context_meth_exit (exampleEnabled false) (exampleEnabledWorld false)).2.1 ∧
    (Context_meth_exit (exampleEnabled false) (exampleEnabledWorld false)).2.1.destroyed
      = true :=
  ⟨by decide, (invariant_established_and_preserved exampleDriver (exampleEnabled false)
    PyObject.none (exampleEnabledWorld false) (by decide)).2.1, rfl⟩

/-! ## Release of the owned resources -/

theorem releaseCalls_congr (a b : Context) (h : a.owned = b.owned) :
    releaseCalls a = releaseCalls b := by
  simp only [Context.owned, Prod.mk.injEq] at h
  simp [releaseCalls, h.1, h.2.1, h.2.2]

theorem load_effect (d : Driver) (self : Context) (arg : PyObject) (w : World) :
    ∃ more, (Context_meth_load_opengl_function d self arg w).2.1 = self ∧
      (Context_meth_load_opengl_function d self arg w).2.2.calls = w.calls ++ more ∧
      (Context_meth_load_opengl_function d self arg w).2.2.current = w.current ∧
      (∀ c ∈ more, c.isRelease = false ∧ c.isMakeCurrent = false) := by
  cases he : self.enabled
  · rw [load_not_enabled d self arg w he]; exact ⟨[], rfl, by simp, rfl, by simp⟩
  · cases arg with
    | str t =>
      rw [load_str d self t w he]
      refine ⟨_, rfl, rfl, rfl, ?_⟩
      by_cases hx : d.exports self.opengl32 (PyUnicode_AsUTF8 t) = 0 <;>
        simp [hx, NativeCall.isRelease, NativeCall.isMakeCurrent]
    | none =>
      rw [load_not_text d self _ w he (by simp)]; exact ⟨[], rfl, by simp, rfl, by simp⟩
    | bool b =>
      rw [load_not_text d self _ w he (by simp)]; exact ⟨[], rfl, by simp, rfl, by simp⟩
    | long n =>
      rw [load_not_text d self _ w he (by simp)]; exact ⟨[], rfl, by simp, rfl, by simp⟩
    | bytes t =>
      rw [load_not_text d self _ w he (by simp)]; exact ⟨[], rfl, by simp, rfl, by simp⟩

theorem filter_isRelease_nil (more : List NativeCall)
    (h : ∀ c ∈ more, c.isRelease = false ∧ c.isMakeCurrent = false) :
    more.filter NativeCall.isRelease = [] := by
  rw [List.filter_eq_nil_iff]
  intro c hc
  simp [(h c hc).1]

theorem step_effect (d : Driver) (op : Op) (s : Context × World) (hinv : invariant s.1)
    (hop : op.isCall = true) :
    ∃ more, (step d op s).2.calls = s.2.calls ++ more ∧
      (((step d op s).1.destroyed = s.1.destroyed ∧ (step d op s).1.owned = s.1.owned ∧
          more.filter NativeCall.isRelease = []) ∨
       (s.1.destroyed = false ∧ (step d op s).1.destroyed = true ∧
          more.filter NativeCall.isRelease = releaseCalls s.1)) := by
  obtain ⟨self, w⟩ := s
  simp only at hinv
  cases op with
  | Teardown => simp [Op.isCall] at hop
  | Activate =>
    show ∃ more, (Context_meth_enter self w).2.2.calls = w.calls ++ more ∧
      (((Context_meth_enter self w).2.1.destroyed = self.destroyed ∧
        (Context_meth_enter self w).2.1.owned = self.owned ∧ _) ∨ _)
    cases he : self.enabled
    · cases hd : self.destroyed
      · rw [enter_ok self w he hd]
        exact ⟨_, rfl, Or.inl ⟨hd.symm ▸ rfl, rfl, by simp [NativeCall.isRelease]⟩⟩
      · rw [enter_destroyed self w he hd]
        exact ⟨[], by simp, Or.inl ⟨hd, rfl, rfl⟩⟩
    · rw [enter_enabled self w he]
      exact ⟨[], by simp, Or.inl ⟨rfl, rfl, rfl⟩⟩
  | Deactivate =>
    show ∃ more, (Context_meth_exit self w).2.2.calls = w.calls ++ more ∧
      (((Context_meth_exit self w).2.1.destroyed = self.destroyed ∧
        (Context_meth_exit self w).2.1.owned = self.owned ∧ _) ∨
       (self.destroyed = false ∧ (Context_meth_exit self w).2.1.destroyed = true ∧ _))
    cases he : self.enabled
    · rw [exit_not_enabled self w he]
      exact ⟨[], by simp, Or.inl ⟨rfl, rfl, rfl⟩⟩
    · have hd : self.destroyed = false := by
        cases hd : self.destroyed
        · rfl
        · have h2 := hinv hd
          rw [he] at h2
          simp at h2
      cases hr : self.reusable
      · rw [exit_single_use self w he hr]
        refine ⟨releaseCalls self ++
          [NativeCall.wglMakeCurrent self.restore_hdc self.restore_hglrc], by simp,
          Or.inr ⟨hd, rfl, ?_⟩⟩
        simp [List.filter_append, NativeCall.isRelease, releaseCalls]
      · rw [exit_reusable self w he hr]
        exact ⟨_, rfl, Or.inl ⟨rfl, rfl, by simp [NativeCall.isRelease]⟩⟩
  | ResolveFunction arg =>
    show ∃ more, (Context_meth_load_opengl_function d self arg w).2.2.calls =
        w.calls ++ more ∧
      (((Context_meth_load_opengl_function d self arg w).2.1.destroyed = self.destroyed ∧
        (Context_meth_load_opengl_function d self arg w).2.1.owned = self.owned ∧ _) ∨ _)
    obtain ⟨more, k1, k2, _, k3⟩ := load_effect d self arg w
    exact ⟨more, k2, Or.inl ⟨by rw [k1], by rw [k1], filter_isRelease_nil more k3⟩⟩

theorem step_ledger (d : Driver) (c0 : Context) (w1 : World) (op : Op)
    (s : Context × World) (hl : ledger c0 w1 s) (hop : op.isCall = true) :
    ledger c0 w1 (step d op s) := by
  obtain ⟨hinv, extra, hlog, hcase⟩ := hl
  obtain ⟨more, hm, heff⟩ := step_effect d op s hinv hop
  refine ⟨step_invariant d op s hinv, extra ++ more, ?_, ?_⟩
  · rw [hm, hlog, List.append_assoc]
  · rcases hcase with ⟨h1, h2, h3⟩ | ⟨h1, h2⟩
    · rcases heff with ⟨e1, e2, e3⟩ | ⟨_, e2, e3⟩
      · left
        exact ⟨e1.trans h1, e2.trans h2, by rw [List.filter_append, h3, e3]; rfl⟩
      · right
        refine ⟨e2, ?_⟩
        rw [List.filter_append, h3, e3, releaseCalls_congr s.1 c0 h2]; rfl
    · rcases heff with ⟨e1, _, e3⟩ | ⟨e1, _, _⟩
      · right
        exact ⟨e1.trans h1, by rw [List.filter_append, h2, e3]; simp⟩
      · rw [h1] at e1; simp at e1

theorem run_ledger (d : Driver) (c0 : Context) (w1 : World) (ops : List Op)
    (s : Context × World) (hl : ledger c0 w1 s) (hops : ∀ op ∈ ops, op.isCall = true) :
    ledger c0 w1 (run d ops s) := by
  induction ops generalizing s with
  | nil => exact hl
  | cons op ops ih =>
    exact ih (step d op s)
      (step_ledger d c0 w1 op s hl (hops op (List.mem_cons_self op ops)))
      (fun x hx => hops x (List.mem_cons_of_mem op hx))

theorem construct_ledger (args : List PyObject) (kwargs : List (String × PyObject))
    (h : NativeHandles) (w0 : World) (h0 : (Construct args kwargs h w0).1 = 0) :
    ledger (Construct args kwargs h w0).2.1 (Construct args kwargs h w0).2.2
      (Construct args kwargs h w0).2 := by
  have hc := construct_fields args kwargs h w0 h0
  refine ⟨?_, [], by simp, Or.inl ⟨hc.1, rfl, rfl⟩⟩
  intro hd
  rw [hc.1] at hd
  simp at hd

theorem dealloc_ledger (c0 : Context) (w1 : World) (s : Context × World)
    (hl : ledger c0 w1 s) :
    ∃ extra, (Context_dealloc s.1 s.2).2.calls = w1.calls ++ extra ∧
      extra.filter NativeCall.isRelease = releaseCalls c0 := by
  obtain ⟨self, w⟩ := s
  obtain ⟨hinv, extra, hlog, hcase⟩ := hl
  simp only at hinv hlog hcase ⊢
  rcases hcase with ⟨h1, h2, h3⟩ | ⟨h1, h2⟩
  · cases he : self.enabled
    · rw [dealloc_idle_live self w he h1]
      refine ⟨extra ++ releaseCalls self, by simp [release_spec, hlog], ?_⟩
      rw [List.filter_append, h3, ← releaseCalls_congr self c0 h2]
      simp [releaseCalls, NativeCall.isRelease]
    · rw [dealloc_enabled_live self w he h1]
      refine ⟨extra ++ [NativeCall.wglMakeCurrent self.restore_hdc self.restore_hglrc] ++
        releaseCalls self, by simp [hlog], ?_⟩
      rw [List.filter_append, List.filter_append, h3, ← releaseCalls_congr self c0 h2]
      simp [releaseCalls, NativeCall.isRelease]
  · have he := (hinv h1).1
    rw [dealloc_idle_destroyed self w he h1]
    exact ⟨extra, hlog, h2⟩

theorem released_of_filter (c0 : Context) (extra : List NativeCall) :
    released c0 extra = released c0 (extra.filter NativeCall.isRelease) := by
  simp [released, NativeCall.isRelease]

theorem released_releaseCalls (c0 : Context) : released c0 (releaseCalls c0) = (1, 1, 1) := by
  simp [released, releaseCalls, List.count_cons]

theorem issued_append (w1 w : World) (extra : List NativeCall)
    (h : w.calls = w1.calls ++ extra) : issued w1 w = extra := by
  unfold issued
  rw [h, List.drop_left]

/-- C14: after a construction that succeeds, along every sequence of Activate, Deactivate
and ResolveFunction calls (succeeding or failing), the release calls issued so far are
either none or exactly the three calls for the owned handles of the instance, so each
owned handle was passed to its release call at most once; and once the destructor has run
at the end, the release calls issued in total are exactly those three, each handle
released exactly once, whether or not a non-reusable Deactivate had released them. -/
theorem released_exactly_once (d : Driver) (args : List PyObject)
    (kwargs : List (String × PyObject)) (h : NativeHandles) (w0 : World) (ops : List Op)
    (h0 : (Construct args kwargs h w0).1 = 0) (hops : ∀ op ∈ ops, op.isCall = true) :
    ((issued (Construct args kwargs h w0).2.2
        (afterCalls d args kwargs h w0 ops).2).filter NativeCall.isRelease = [] ∨
     (issued (Construct args kwargs h w0).2.2
        (afterCalls d args kwargs h w0 ops).2).filter NativeCall.isRelease =
          releaseCalls (Construct args kwargs h w0).2.1) ∧
    (released (Construct args kwargs h w0).2.1 (issued (Construct args kwargs h w0).2.2
      (afterCalls d args kwargs h w0 ops).2)).1 ≤ 1 ∧
    (released (Construct args kwargs h w0).2.1 (issued (Construct args kwargs h w0).2.2
      (afterCalls d args kwargs h w0 ops).2)).2.1 ≤ 1 ∧
    (released (Construct args kwargs h w0).2.1 (issued (Construct args kwargs h w0).2.2
      (afterCalls d args kwargs h w0 ops).2)).2.2 ≤ 1 ∧
    (issued (Construct args kwargs h w0).2.2
      (afterTeardown d args kwargs h w0 ops).2).filter NativeCall.isRelease =
        releaseCalls (Construct args kwargs h w0).2.1 ∧
    released (Construct args kwargs h w0).2.1 (issued (Construct args kwargs h w0).2.2
      (afterTeardown d args kwargs h w0 ops).2) = (1, 1, 1) ∧
    releaseCalls (Construct args kwargs h w0).2.1 =
      [NativeCall.wglDeleteContext h.hglrc, NativeCall.ReleaseDC h.hwnd h.hdc,
       NativeCall.DestroyWindow h.hwnd] := by
  have hl := run_ledger d _ _ ops _ (construct_ledger args kwargs h w0 h0) hops
  have hl2 := hl
  obtain ⟨_, extra, hlog, hcase⟩ := hl
  obtain ⟨extra2, hlog2, hf2⟩ := dealloc_ledger _ _ _ hl2
  have i1 := issued_append _ (afterCalls d args kwargs h w0 ops).2 extra hlog
  have i2 := issued_append _ (afterTeardown d args kwargs h w0 ops).2 extra2 hlog2
  rw [i1, i2]
  have hc := construct_fields args kwargs h w0 h0
  have hcount : released (Construct args kwargs h w0).2.1 extra = (0, 0, 0) ∨
      released (Construct args kwargs h w0).2.1 extra = (1, 1, 1) := by
    rw [released_of_filter]
    rcases hcase with ⟨_, _, h3⟩ | ⟨_, h3⟩
    · left; rw [h3]; rfl
    · right; rw [h3]; exact released_releaseCalls _
  refine ⟨?_, ?_, ?_, ?_, hf2, ?_, ?_⟩
  · rcases hcase with ⟨_, _, h3⟩ | ⟨_, h3⟩
    · exact Or.inl h3
    · exact Or.inr h3
  · rcases hcount with h | h <;> simp [h]
  · rcases hcount with h | h <;> simp [h]
  · rcases hcount with h | h <;> simp [h]
  · rw [released_of_filter, hf2]; exact released_releaseCalls _
  · have ho := hc.2.2.2.1
    simp only [Context.owned, Prod.mk.injEq] at ho
    simp [releaseCalls, ho.1, ho.2.1, ho.2.2]

theorem released_exactly_once_witness :
    (Construct [] [] exampleHandles exampleWorld).1 = 0 ∧
    (∀ op ∈ [Op.Activate, Op.Deactivate, Op.Activate], op.isCall = true) ∧
    released (Construct [] [] exampleHandles exampleWorld).2.1
      (issued (Construct [] [] exampleHandles exampleWorld).2.2
        (afterTeardown exampleDriver [] [] exampleHandles exampleWorld
          [Op.Activate, Op.Deactivate, Op.Activate]).2) = (1, 1, 1) :=
  ⟨rfl, by decide, (released_exactly_once exampleDriver [] [] exampleHandles exampleWorld
    [Op.Activate, Op.Deactivate, Op.Activate] rfl (by decide)).2.2.2.2.2.1⟩

/-! ## Teardown -/

theorem step_saved (d : Driver) (op : Op) (s : Context × World)
    (hs : s.1.enabled = false → s.1.saved = (NULL, NULL)) (hop : op.isCall = true) :
    (step d op s).1.enabled = false → (step d op s).1.saved = (NULL, NULL) := by
  obtain ⟨self, w⟩ := s
  simp only at hs
  cases op with
  | Teardown => simp [Op.isCall] at hop
  | Activate =>
    show (Context_meth_enter self w).2.1.enabled = false →
      (Context_meth_enter self w).2.1.saved = (NULL, NULL)
    cases he : self.enabled
    · cases hd : self.destroyed
      · rw [enter_ok self w he hd]; intro h; simp at h
      · rw [enter_destroyed self w he hd]; exact fun _ => hs he
    · rw [enter_enabled self w he]; intro h; rw [he] at h; simp at h
  | Deactivate =>
    show (Context_meth_exit self w).2.1.enabled = false →
      (Context_meth_exit self w).2.1.saved = (NULL, NULL)
    intro _
    cases he : self.enabled
    · rw [exit_not_enabled self w he]; exact hs he
    · exact (exit_effect self w he).2.2.2.1
  | ResolveFunction arg =>
    show (Context_meth_load_opengl_function d self arg w).2.1.enabled = false →
      (Context_meth_load_opengl_function d self arg w).2.1.saved = (NULL, NULL)
    obtain ⟨_, k1, _⟩ := load_effect d self arg w
    rw [k1]; exact hs

theorem run_saved (d : Driver) (ops : List Op) (s : Context × World)
    (hs : s.1.enabled = false → s.1.saved = (NULL, NULL))
    (hops : ∀ op ∈ ops, op.isCall = true) :
    (run d ops s).1.enabled = false → (run d ops s).1.saved = (NULL, NULL) := by
  induction ops generalizing s with
  | nil => exact hs
  | cons op ops ih =>
    exact ih (step d op s) (step_saved d op s hs (hops op (List.mem_cons_self op ops)))
      (fun x hx => hops x (List.mem_cons_of_mem op hx))

/-- C13: after a construction, an Activate on a thread where the pair (5, 7) is current
and then the destructor, the instance has `enabled` false while `restore_hdc` and
`restore_hglrc` still hold 5 and 7: `Context_dealloc` resets `enabled` without clearing
the saved pair, which `Context_meth_exit` does clear. -/
theorem teardown_keeps_saved_pair :
    (Construct [] [] exampleHandles exampleWorld).1 = 0 ∧
    (afterCalls exampleDriver [] [] exampleHandles exampleWorld
      [Op.Activate, Op.Teardown]).1.enabled = false ∧
    (afterCalls exampleDriver [] [] exampleHandles exampleWorld
      [Op.Activate, Op.Teardown]).1.restore_hdc = 5 ∧
    (afterCalls exampleDriver [] [] exampleHandles exampleWorld
      [Op.Activate, Op.Teardown]).1.restore_hglrc = 7 ∧
    (afterCalls exampleDriver [] [] exampleHandles exampleWorld
      [Op.Activate, Op.Deactivate]).1.saved = (NULL, NULL) :=
  ⟨rfl, rfl, rfl, rfl, rfl⟩

/-- C15: `Context_dealloc` on an enabled instance issues the `wglMakeCurrent` of the
saved pair first and the release calls after it, and leaves the slot holding the saved
pair; for an instance that was activated while neither enabled nor destroyed, that pair
is the one that was current immediately before the Activate; on an instance that is not
enabled it issues no `wglMakeCurrent` and leaves the slot unchanged. -/
theorem teardown_restores (self : Context) (w : World) :
    (self.enabled = true →
      (Context_dealloc self w).2.current = self.saved ∧
      issued w (Context_dealloc self w).2 =
        NativeCall.wglMakeCurrent self.restore_hdc self.restore_hglrc ::
          (if self.destroyed then [] else releaseCalls self)) ∧
    (self.enabled = false →
      (Context_dealloc self w).2.current = w.current ∧
      ∀ c ∈ issued w (Context_dealloc self w).2, c.isMakeCurrent = false) ∧
    (self.enabled = false → self.destroyed = false →
      (Context_dealloc (Context_meth_enter self w).2.1
        (Context_meth_enter self w).2.2).2.current = w.current ∧
      issued (Context_meth_enter self w).2.2
        (Context_dealloc (Context_meth_enter self w).2.1
          (Context_meth_enter self w).2.2).2 =
        NativeCall.wglMakeCurrent w.current.1 w.current.2 :: releaseCalls self ∧
      (Context_dealloc (Context_meth_enter self w).2.1
        (Context_meth_enter self w).2.2).1.destroyed = true) := by
  refine ⟨?_, ?_, ?_⟩
  · intro he
    cases hd : self.destroyed
    · rw [dealloc_enabled_live self w he hd]
      exact ⟨rfl, by simp [issued]⟩
    · rw [dealloc_enabled_destroyed self w he hd]
      exact ⟨rfl, by simp [issued]⟩
  · intro he
    cases hd : self.destroyed
    · rw [dealloc_idle_live self w he hd]
      refine ⟨rfl, ?_⟩
      simp [issued, release_spec, releaseCalls, NativeCall.isMakeCurrent]
    · rw [dealloc_idle_destroyed self w he hd]
      exact ⟨rfl, by simp [issued]⟩
  · intro he hd
    have e := enter_ok self w he hd
    have x := dealloc_enabled_live (Context_meth_enter self w).2.1
      (Context_meth_enter self w).2.2 (by rw [e]) (by rw [e]; exact hd)
    rw [x, e]
    refine ⟨rfl, ?_, rfl⟩
    simp [issued, releaseCalls]

theorem teardown_restores_witness :
    (exampleContext true).enabled = false ∧ (exampleContext true).destroyed = false ∧
    (Context_dealloc (Context_meth_enter (exampleContext true) exampleWorld).2.1
      (Context_meth_enter (exampleContext true) exampleWorld).2.2).2.current = (5, 7) :=
  ⟨rfl, rfl, ((teardown_restores (exampleContext true) exampleWorld).2.2 rfl rfl).1⟩

/-- C16: in every state that an instance reaches from a successful construction by any
sequence of operations, if `destroyed` is true then, in any world, `Context_meth_enter`
fails with `DestroyedError`, `Context_meth_exit` and `Context_meth_load_opengl_function`
fail with `NotEnabledError`, `Context_dealloc` issues no native call at all, and each of
the four leaves the instance as it is, so `destroyed` stays true. -/
theorem destroyed_terminal (d : Driver) (args : List PyObject)
    (kwargs : List (String × PyObject)) (h : NativeHandles) (w0 : World) (ops : List Op)
    (arg : PyObject) (w : World) (h0 : (Construct args kwargs h w0).1 = 0)
    (hd : (afterCalls d args kwargs h w0 ops).1.destroyed = true) :
    Context_meth_enter (afterCalls d args kwargs h w0 ops).1 w =
      (DestroyedError, (afterCalls d args kwargs h w0 ops).1, w) ∧
    Context_meth_exit (afterCalls d args kwargs h w0 ops).1 w =
      (NotEnabledError, (afterCalls d args kwargs h w0 ops).1, w) ∧
    Context_meth_load_opengl_function d (afterCalls d args kwargs h w0 ops).1 arg w =
      (NotEnabledError, (afterCalls d args kwargs h w0 ops).1, w) ∧
    Context_dealloc (afterCalls d args kwargs h w0 ops).1 w =
      ((afterCalls d args kwargs h w0 ops).1, w) ∧
    (∀ op : Op, (step d op ((afterCalls d args kwargs h w0 ops).1, w)).1.destroyed
      = true) := by
  have hinv : invariant (afterCalls d args kwargs h w0 ops).1 :=
    run_invariant d ops _ (construct_ledger args kwargs h w0 h0).1
  have he := (hinv hd).1
  have h1 := enter_destroyed _ w he hd
  have h2 := exit_not_enabled _ w he
  have h3 := load_not_enabled d _ arg w he
  have h4 := dealloc_idle_destroyed _ w he hd
  refine ⟨h1, h2, h3, h4, ?_⟩
  intro op
  cases op with
  | Activate => show (Context_meth_enter _ w).2.1.destroyed = true; rw [h1]; exact hd
  | Deactivate => show (Context_meth_exit _ w).2.1.destroyed = true; rw [h2]; exact hd
  | ResolveFunction a =>
    show (Context_meth_load_opengl_function d _ a w).2.1.destroyed = true
    rw [load_not_enabled d _ a w he]; exact hd
  | Teardown => show (Context_dealloc _ w).1.destroyed = true; rw [h4]; exact hd

theorem destroyed_terminal_witness :
    (Construct [] [] exampleHandles exampleWorld).1 = 0 ∧
    (afterCalls exampleDriver [] [] exampleHandles exampleWorld
      [Op.Activate, Op.Deactivate]).1.destroyed = true ∧
    Context_meth_enter (afterCalls exampleDriver [] [] exampleHandles exampleWorld
      [Op.Activate, Op.Deactivate]).1 exampleWorld =
      (DestroyedError, (afterCalls exampleDriver [] [] exampleHandles exampleWorld
        [Op.Activate, Op.Deactivate]).1, exampleWorld) :=
  ⟨rfl, rfl, (destroyed_terminal exampleDriver [] [] exampleHandles exampleWorld
    [Op.Activate, Op.Deactivate] PyObject.none exampleWorld rfl rfl).1⟩

/-! ## Construction -/

/-- C17, as stated, fails: when `CreateWindow`, `GetDC` and `wglCreateContext` all return
`NULL`, the construction still returns 0, yields an instance with null handles that is
neither destroyed nor enabled, and an Activate on that instance succeeds. -/
theorem construct_null_handles_succeeds :
    (Construct [] [] failedHandles exampleWorld).1 = 0 ∧
    (Construct [] [] failedHandles exampleWorld).2.1.owned = (NULL, NULL, NULL) ∧
    (Construct [] [] failedHandles exampleWorld).2.1.destroyed = false ∧
    (Context_meth_enter (Construct [] [] failedHandles exampleWorld).2.1
      (Construct [] [] failedHandles exampleWorld).2.2).1 = PyResult.none ∧
    (Context_meth_enter (Construct [] [] failedHandles exampleWorld).2.1
      (Construct [] [] failedHandles exampleWorld).2.2).2.1.enabled = true :=
  ⟨rfl, rfl, rfl, rfl, rfl⟩

/-- C17, amended: `Context_init` checks no native result. It fails, with -1 and with
the instance and the native world untouched, exactly when its arguments do not parse,
and returns 0 otherwise; whatever handles the creation calls returned, null ones included, are
stored as they are, and an Activate on the instance so constructed succeeds, in any world,
making the stored `(hdc, hglrc)` current. -/
theorem construct_unchecked (args : List PyObject) (kwargs : List (String × PyObject))
    (h : NativeHandles) (w0 w : World) :
    ((Construct args kwargs h w0).1 = -1 ↔
      PyArg_ParseTupleAndKeywords args kwargs false = Option.none) ∧
    ((Construct args kwargs h w0).1 = -1 →
      (Construct args kwargs h w0).2 = (Context.zero, w0)) ∧
    ((Construct args kwargs h w0).1 = 0 ↔
      PyArg_ParseTupleAndKeywords args kwargs false ≠ Option.none) ∧
    ((Construct args kwargs h w0).1 = 0 →
      (Construct args kwargs h w0).2.1.owned = (h.hwnd, h.hdc, h.hglrc) ∧
      (Context_meth_enter (Construct args kwargs h w0).2.1 w).1 = PyResult.none ∧
      (Context_meth_enter (Construct args kwargs h w0).2.1 w).2.1.enabled = true ∧
      (Context_meth_enter (Construct args kwargs h w0).2.1 w).2.2.current =
        (h.hdc, h.hglrc)) := by
  cases hp : PyArg_ParseTupleAndKeywords args kwargs false with
  | none =>
    have e := init_rejected Context.zero args kwargs h w0 hp
    unfold Construct
    rw [e]
    simp
  | some r =>
    have e := init_parsed Context.zero args kwargs h w0 r hp
    unfold Construct
    rw [e]
    refine ⟨by simp, by simp, by simp, ?_⟩
    intro _
    rw [enter_ok _ w rfl rfl]
    exact ⟨rfl, rfl, rfl, rfl⟩

theorem construct_unchecked_witness :
    (Construct [] [] failedHandles exampleWorld).1 = 0 ∧
    (Context_meth_enter (Construct [] [] failedHandles exampleWorld).2.1
      exampleWorld).1 = PyResult.none :=
  ⟨rfl, ((construct_unchecked [] [] failedHandles exampleWorld exampleWorld).2.2.2
    rfl).2.1⟩

/-! ## Release order -/

/-- C18: the release as the specification words it, `release_spec`, issues
`wglDeleteContext(hglrc)`, `ReleaseDC(hwnd, hdc)`, `DestroyWindow(hwnd)` in this order
with the handles held before, and leaves the three handles null and `destroyed` true; a
non-reusable `Context_meth_exit` is that release followed by the restore of the saved
pair, and `Context_dealloc` on a not-destroyed instance is the same release, after the
restore when the instance is enabled: same call sequence, same field update. -/
theorem release_shared (self : Context) (w : World) :
    issued w (release_spec self w).2 =
      [NativeCall.wglDeleteContext self.hglrc, NativeCall.ReleaseDC self.hwnd self.hdc,
       NativeCall.DestroyWindow self.hwnd] ∧
    (release_spec self w).1.owned = (NULL, NULL, NULL) ∧
    (release_spec self w).1.destroyed = true ∧
    (self.enabled = true → self.reusable = false →
      Context_meth_exit self w =
        (PyResult.none,
         { (release_spec self w).1 with
             restore_hdc := NULL, restore_hglrc := NULL, enabled := false },
         wglMakeCurrent self.restore_hdc self.restore_hglrc (release_spec self w).2)) ∧
    (self.enabled = false → self.destroyed = false →
      Context_dealloc self w = release_spec self w) ∧
    (self.enabled = true → self.destroyed = false →
      Context_dealloc self w =
        release_spec { self with enabled := false }
          (wglMakeCurrent self.restore_hdc self.restore_hglrc w)) := by
  refine ⟨by simp [issued, release_spec, releaseCalls], rfl, rfl, ?_, ?_, ?_⟩
  · intro he hr
    rw [exit_single_use self w he hr]
    simp [release_spec, wglMakeCurrent]
  · intro he hd
    exact dealloc_idle_live self w he hd
  · intro he hd
    rw [dealloc_enabled_live self w he hd]
    simp [release_spec, wglMakeCurrent, releaseCalls]

theorem release_shared_witness :
    (exampleContext false).enabled = false ∧ (exampleContext false).destroyed = false ∧
    Context_dealloc (exampleContext false) exampleWorld =
      release_spec (exampleContext false) exampleWorld :=
  ⟨rfl, rfl, (release_shared (exampleContext false) exampleWorld).2.2.2.2.1 rfl rfl⟩

/-! ## Out-of-order deactivation -/

/-- C19: for instances `a` (not reusable) and `b`, each neither enabled nor destroyed,
the four calls `a` Activate, `b` Activate, `a` Deactivate, `b` Deactivate all return
`None`; the calls issued contain the release of the handles of `a` and end, after the
release of `b` when `b` is not reusable, with a `wglMakeCurrent` of the former
`(hdc, hglrc)` of `a`, so at the end the slot holds that released pair and not the pair
that was current before the first Activate, which was made current by the Deactivate of
`a` and then replaced. -/
theorem out_of_order_restores_released (a b : Context) (w : World)
    (ha : a.enabled = false ∧ a.destroyed = false) (hr : a.reusable = false)
    (hb : b.enabled = false ∧ b.destroyed = false) :
    (outOfOrder a b w).1 =
      [PyResult.none, PyResult.none, PyResult.none, PyResult.none] ∧
    issued w (outOfOrder a b w).2 =
      [NativeCall.wglGetCurrentDC, NativeCall.wglGetCurrentContext,
       NativeCall.wglMakeCurrent a.hdc a.hglrc,
       NativeCall.wglGetCurrentDC, NativeCall.wglGetCurrentContext,
       NativeCall.wglMakeCurrent b.hdc b.hglrc,
       NativeCall.wglDeleteContext a.hglrc, NativeCall.ReleaseDC a.hwnd a.hdc,
       NativeCall.DestroyWindow a.hwnd,
       NativeCall.wglMakeCurrent w.current.1 w.current.2] ++
      (if b.reusable then [] else releaseCalls b) ++
      [NativeCall.wglMakeCurrent a.hdc a.hglrc] ∧
    (outOfOrder a b w).2.current = (a.hdc, a.hglrc) := by
  have e1 := enter_ok a w ha.1 ha.2
  have e2 := enter_ok b (Context_meth_enter a w).2.2 hb.1 hb.2
  have e3 := exit_single_use (Context_meth_enter a w).2.1
    (Context_meth_enter b (Context_meth_enter a w).2.2).2.2 (by rw [e1])
    (by rw [e1]; exact hr)
  have e4 := exit_effect (Context_meth_enter b (Context_meth_enter a w).2.2).2.1
    (Context_meth_exit (Context_meth_enter a w).2.1
      (Context_meth_enter b (Context_meth_enter a w).2.2).2.2).2.2 (by rw [e2])
  obtain ⟨f1, f2, f3, _⟩ := e4
  have hres : (outOfOrder a b w).1 =
      [(Context_meth_enter a w).1, (Context_meth_enter b (Context_meth_enter a w).2.2).1,
       (Context_meth_exit (Context_meth_enter a w).2.1
          (Context_meth_enter b (Context_meth_enter a w).2.2).2.2).1,
       (Context_meth_exit (Context_meth_enter b (Context_meth_enter a w).2.2).2.1
          (Context_meth_exit (Context_meth_enter a w).2.1
            (Context_meth_enter b (Context_meth_enter a w).2.2).2.2).2.2).1] := rfl
  have hw : (outOfOrder a b w).2 =
      (Context_meth_exit (Context_meth_enter b (Context_meth_enter a w).2.2).2.1
          (Context_meth_exit (Context_meth_enter a w).2.1
            (Context_meth_enter b (Context_meth_enter a w).2.2).2.2).2.2).2.2 := rfl
  refine ⟨?_, ?_, ?_⟩
  · rw [hres, f1, e3, e2, e1]
  · unfold issued
    rw [hw, f2, e3, e2, e1]
    cases hbr : b.reusable <;> simp [releaseCalls]
  · rw [hw, f3, e2, e1]
    rfl

theorem out_of_order_restores_released_witness :
    ((exampleContext false).enabled = false ∧ (exampleContext false).destroyed = false) ∧
    (exampleContext false).reusable = false ∧
    ((exampleContextB true).enabled = false ∧ (exampleContextB true).destroyed = false) ∧
    (outOfOrder (exampleContext false) (exampleContextB true) exampleWorld).2.current =
      (12, 13) ∧
    exampleWorld.current = (5, 7) :=
  ⟨⟨rfl, rfl⟩, rfl, ⟨rfl, rfl⟩,
    (out_of_order_restores_released (exampleContext false) (exampleContextB true)
      exampleWorld ⟨rfl, rfl⟩ rfl ⟨rfl, rfl⟩).2.2, rfl⟩

end HeadlessContext
